import Mathlib

/-!
# Shallow embedding of the json2tab turbine-type resolution engine

This file embeds, in Lean 4, the parts of the `json2tab` Python code base
that the specification claims C1..C10 are about:

* `src/json2tab/utils.py`            — dict getters, `power_to_kw`, radius/height/power extraction;
* `src/json2tab/ModelNameParser.py`  — the ordered regular-expression cascade `parse_model_name`;
* `src/json2tab/ModelNameBuilder.py` — `build_model_designation` and the manufacturer-prefix table;
* `src/json2tab/ProbabilisticMapper.py` — the deterministic (md5-based) fallback mapper;
* `src/json2tab/TurbineTypeManager.py` — catalog views, `get_specs_by_line_index`,
  `get_specs_by_tower_properties`;
* `src/json2tab/ModelDesignationDeriver.py` — `by_turbine_type` and `enrich_model_designation`;
* `src/json2tab/DimensionLocationMapper.py` — the diameter-band heuristic;
* `src/json2tab/TurbineMatcher.py` — the match cache, the plausibility check and the
  eight-stage matching cascade `match_model_designation_on_turbine`.

Conventions used throughout the embedding:

* Python floats are modelled as `ℚ`.  Every concrete number handled by the theorems below
  is an exactly representable decimal, and every arithmetic operation performed on it by the
  source (addition, subtraction, multiplication, division, comparison) is exact on such
  values, so the rational model agrees with IEEE double semantics on all inputs considered.
* Python values stored in records/catalog cells are modelled by `Val`
  (a float, a string, a boolean, or `None`); a `dict`/pandas row is an association list
  `PyDict`.  A missing key behaves like Python's `dict.get`, i.e. yields `None`.
* Fallible code paths (a Python exception propagating out of the modelled function) are
  modelled with `Option`, `none` meaning "raises".
* Mutable state (the run-scoped match cache) is passed explicitly and returned.
* Unbounded recursion (`ModelDesignationDeriver.by_turbine_type` calling itself, and the
  backtracking regex matcher) is modelled with an explicit fuel parameter; exhausting the
  fuel models Python's `RecursionError` (an exception, hence `none`).  All runs examined by
  the theorems below terminate far inside the provided fuel.
-/

namespace Json2Tab

/-! ## Python value model -/

/-- A Python scalar value as stored in a record / catalog cell:
a float, an int, a string, a boolean, or `None` (`str()` distinguishes floats
from ints, so both are modelled). -/
inductive Val where
  | num (q : ℚ)
  | int (n : ℤ)
  | str (s : String)
  | bool (b : Bool)
  | none_
  deriving DecidableEq, Repr

/-- A Python `dict` / pandas row: an association list from string keys to values.
Lookup returns the first binding of a key. -/
abbrev PyDict : Type := List (String × Val)

/-- `data.get(key)` — Python's `dict.get` with default `None`: a missing key is
indistinguishable from a key stored with value `None`. -/
def dictGetV (data : PyDict) (key : String) : Val :=
  match data with
  | [] => Val.none_
  | (k, v) :: rest => if k = key then v else dictGetV rest key

/-- `key in data` — Python dict membership. -/
def dictHas (data : PyDict) (key : String) : Bool :=
  match data with
  | [] => false
  | (k, _) :: rest => k = key || dictHas rest key

/-- Truthiness of a Python value (`bool(v)`): `0`, `""`, `False` and `None` are falsy. -/
def Val.truthy : Val → Bool
  | Val.num q => q ≠ 0
  | Val.int n => n ≠ 0
  | Val.str s => s ≠ ""
  | Val.bool b => b
  | Val.none_ => false

/-- Truthiness of an optional float (`None` and `0.0` are falsy). -/
def optTruthy : Option ℚ → Bool
  | some q => q ≠ 0
  | none => false

/-- Truthiness of an optional string (`None` and `""` are falsy). -/
def optStrTruthy : Option String → Bool
  | some s => s ≠ ""
  | none => false

/-- The numeric value of a digit list (most significant first). -/
def digitsToNat (cs : List Char) : Nat :=
  cs.foldl (fun acc c => 10 * acc + (c.toNat - 48)) 0

/-- `int(s)` on an all-digit string, `none` otherwise (`ValueError`). -/
def strDigitsToNat? (s : String) : Option Nat :=
  if s.toList ≠ [] ∧ s.toList.all Char.isDigit then some (digitsToNat s.toList) else none

/-- Replace every occurrence of one character by another
(Python `s.replace(old, new)` for the single-character patterns used here). -/
def charReplace (s : String) (old new : Char) : String :=
  String.mk (s.toList.map (fun c => if c = old then new else c))

/-- Split on a separator character, keeping empty segments
(Python `s.split(sep)` for the single-character separators used here). -/
def splitOnChar (sep : Char) : List Char → List (List Char)
  | [] => [[]]
  | c :: rest =>
      let groups := splitOnChar sep rest
      if c = sep then [] :: groups
      else
        match groups with
        | g :: gs => (c :: g) :: gs
        | [] => [[c]]

/-- Python `s.startswith(pre)`. -/
def startsWithStr (s pre : String) : Bool :=
  pre.toList.isPrefixOf s.toList

/-- Parse the decimal strings produced by the regex groups of the source
(`\d+`, `\d+(\.\d+)?` captures): digits with at most one decimal point.
This models Python's `float(s)` on exactly the string shapes that reach it in the
embedded flows; any other shape models `ValueError`, i.e. `none`. -/
def strToRat? (s : String) : Option ℚ :=
  let cs := s.toList
  if cs = [] then none
  else
    let intPart := cs.takeWhile Char.isDigit
    let rest := cs.dropWhile Char.isDigit
    if intPart = [] then none
    else
      match rest with
      | [] => some (digitsToNat intPart : ℚ)
      | '.' :: frac =>
          if frac ≠ [] ∧ frac.all Char.isDigit then
            some ((digitsToNat intPart : ℚ) +
              (digitsToNat frac : ℚ) / ((10 : ℚ) ^ frac.length))
          else none
      | _ => none

/-- Python's `float(v)` on a `Val`: numbers pass through, booleans become 0/1,
decimal strings parse, everything else raises (`none`). -/
def pyFloat? : Val → Option ℚ
  | Val.num q => some q
  | Val.int n => some (n : ℚ)
  | Val.str s => strToRat? s
  | Val.bool b => some (if b then 1 else 0)
  | Val.none_ => none

/-- Python's `value not in [None, "", "NaN"]` filter used by the dict getters of
`utils.py` (`get_value_from_dict` / `get_float_from_dict`). -/
def validCell : Val → Bool
  | Val.none_ => false
  | Val.str s => s ≠ "" && s ≠ "NaN"
  | _ => true

/-! ## utils.py — dict getters -/

/-- `utils.get_float_from_dict(keys, data, default, require_positive)`:
first key whose cell holds a convertible value (positive, when required) wins;
otherwise the default is returned with no key.  `default` may be `None` (`none`). -/
def getFloatFromDict (keys : List String) (data : PyDict) (dflt : Option ℚ)
    (requirePositive : Bool) : Option ℚ × Option String :=
  match keys with
  | [] => (dflt, none)
  | key :: rest =>
      if dictHas data key then
        let value := dictGetV data key
        if validCell value then
          match pyFloat? value with
          | some q =>
              if !requirePositive || q > 0 then (some q, some key)
              else getFloatFromDict rest data dflt requirePositive
          | none => getFloatFromDict rest data dflt requirePositive
        else getFloatFromDict rest data dflt requirePositive
      else getFloatFromDict rest data dflt requirePositive

/-- `utils.get_float_from_dict_list`: first dict (in list order) yielding a strictly
positive value wins; otherwise the default. -/
def getFloatFromDictList (keys : List String) (dicts : List PyDict) (dflt : Option ℚ)
    (requirePositive : Bool) : Option ℚ × Option String :=
  match dicts with
  | [] => (dflt, none)
  | data :: rest =>
      let (value, key) := getFloatFromDict keys data dflt requirePositive
      if optTruthy value && (value.getD 0) > 0 then (value, key)
      else getFloatFromDictList keys rest dflt requirePositive

/-- The diameter key aliases of `utils.get_radius_from_dict`. -/
def diameterKeys : List String :=
  ["diameter", "diameter (m)", "rotor_diameter", "rotor diameter", "rotor diameter (m)",
   "Rotor diameter (m)", "Rotordiameter (m)", "diam"]

/-- `utils.get_radius_from_dict`: a positive `radius` field wins, else half of a found
diameter field, else the default. -/
def getRadiusFromDict (data : PyDict) (dflt : Option ℚ) : Option ℚ :=
  let (radius, _) := getFloatFromDict ["radius", "radius (m)"] data dflt true
  if optTruthy radius && (radius.getD 0) > 0 then radius
  else
    let (diameter, _) := getFloatFromDict diameterKeys data dflt true
    match diameter with
    | some d => some (d / 2)
    | none => dflt

/-- `utils.get_radius_from_dict_list`: first dict with a positive radius wins. -/
def getRadiusFromDictList (dicts : List PyDict) (dflt : Option ℚ) : Option ℚ :=
  match dicts with
  | [] => dflt
  | data :: rest =>
      let radius := getRadiusFromDict data dflt
      if optTruthy radius && (radius.getD 0) > 0 then radius
      else getRadiusFromDictList rest dflt

/-- The height key aliases of `utils.get_height`. -/
def heightKeys : List String :=
  ["hubheight", "hub_height", "hub height", "Hub height", "hub height (m)", "Hub height",
   "Hub height (m)", "height", "z_height (m)", "z_height", "ash", "hoogte_paa",
   "Navhöjd (m)"]

/-- `utils.get_height` on a list of dicts. -/
def getHeightL (dicts : List PyDict) (dflt : Option ℚ) : Option ℚ :=
  (getFloatFromDictList heightKeys dicts dflt true).1

/-- `utils.get_height` on a single dict. -/
def getHeightD (data : PyDict) (dflt : Option ℚ) : Option ℚ :=
  (getFloatFromDict heightKeys data dflt true).1

/-- `utils.get_radius` on a list of dicts. -/
def getRadiusL (dicts : List PyDict) (dflt : Option ℚ) : Option ℚ :=
  getRadiusFromDictList dicts dflt

/-- `utils.get_diameter` on a single dict (twice the radius when one is found). -/
def getDiameterD (data : PyDict) (dflt : Option ℚ) : Option ℚ :=
  match getRadiusFromDict data dflt with
  | some r => some (2 * r)
  | none => none

/-! ## utils.py — power normalization -/

/-- Upper-case an ASCII string (as Python `str.upper()` on the strings that occur here). -/
def pyUpper (s : String) : String :=
  String.mk (s.toList.map Char.toUpper)

/-- Lower-case an ASCII string (as Python `str.lower()` on the strings that occur here). -/
def pyLower (s : String) : String :=
  String.mk (s.toList.map Char.toLower)

/-- Substring containment test on character lists (`sub in s` for strings). -/
def listContainsSub (s sub : List Char) : Bool :=
  match s with
  | [] => sub.isPrefixOf ([] : List Char)
  | _ :: rest => sub.isPrefixOf s || listContainsSub rest sub

/-- Substring containment test (`sub in s` for strings). -/
def containsSub (s sub : String) : Bool :=
  listContainsSub s.toList sub.toList

/-- The diameter-based unit guess of `power_to_kw` (the
`known_unit is None and diameter is not None` block). -/
def guessUnitFromDiameter (p d : ℚ) : Option String :=
  if d ≥ 35 ∧ p < 1 then some "MW"
  else if p < 450 then (if d ≥ 60 then some "MW" else some "kW")
  else none

/-- The magnitude-based unit guess of `power_to_kw` (the second
`known_unit is None` block). -/
def guessUnitFromMagnitude (p : ℚ) : Option String :=
  if p > 1000000 then some "W" else if p > 1000 then some "kW" else none

/-- Keep an already-determined unit, otherwise fall back to the next guess
(the `if known_unit is None:` re-assignment structure of `power_to_kw`). -/
def orElseUnit (a b : Option String) : Option String :=
  match a with
  | none => b
  | some u => some u

/-- The unit application and final sub-20 fallback of `power_to_kw`. -/
def applyUnit (p : ℚ) : Option String → ℚ
  | some u =>
      if pyUpper u = "KW" then p
      else if pyUpper u = "MW" then p * 1000
      else if pyUpper u = "W" then p / 1000
      else if 0 < p ∧ p < 20 then p * 1000 else p
  | none => if 0 < p ∧ p < 20 then p * 1000 else p

/-- `utils.power_to_kw(power, known_unit, diameter)` — unit guessing and conversion to kW.
A non-convertible `power` (Python `None`) is returned unchanged (`none`), mirroring the
`except TypeError: return power` in the source. -/
def powerToKw (power : Option ℚ) (knownUnit : Option String) (diameter : Option ℚ) :
    Option ℚ :=
  match power with
  | none => none
  | some p =>
    let unit1 : Option String :=
      match knownUnit, diameter with
      | none, some d => guessUnitFromDiameter p d
      | u, _ => u
    some (applyUnit p (orElseUnit unit1 (guessUnitFromMagnitude p)))

/-- The power key aliases of `utils.get_rated_power_kw`. -/
def powerKeys : List String :=
  ["rated_power", "rated_power_kw", "rated_power_mw", "rated power", "Rated power",
   "power_rating", "power_rating_kw", "power_rating_mw", "power", "kw", "power_kw",
   "power_mw", "vermogen_m", "P_rated", "nominal_power", "nominal power",
   "nominal power (kW)", "capacity", "Capacity (kW)", "Capacity", "Maxeffekt (MW)"]

/-- Unit inferred from the matched power key name (`"MW" in key.upper()`, etc.). -/
def unitOfKey : Option String → Option String
  | none => none
  | some k =>
      let ku := pyUpper k
      if containsSub ku "MW" then some "MW"
      else if containsSub ku "KW" then some "KW"
      else none

/-- `utils.get_rated_power_kw` on a single dict: find a positive power field, infer the
unit from the key name, convert via `power_to_kw` (using a derived diameter as hint);
falsy results collapse to the default. -/
def getRatedPowerKwD (data : PyDict) (dflt : Option ℚ) : Option ℚ :=
  let (ratedPower, key) := getFloatFromDict powerKeys data dflt true
  let radius := getRadiusFromDict data none
  let diameter : Option ℚ := radius.map (fun r => 2 * r)
  let converted := powerToKw ratedPower (unitOfKey key) diameter
  if optTruthy converted then converted else dflt

/-- `utils.get_rated_power_kw` on a list of dicts. -/
def getRatedPowerKwL (dicts : List PyDict) (dflt : Option ℚ) : Option ℚ :=
  let (ratedPower, key) := getFloatFromDictList powerKeys dicts dflt true
  let radius := getRadiusFromDictList dicts none
  let diameter : Option ℚ := radius.map (fun r => 2 * r)
  let converted := powerToKw ratedPower (unitOfKey key) diameter
  if optTruthy converted then converted else dflt

/-- `utils.zero_to_none` on a cell value: `None` for `None`, non-convertible values and
exact zero, otherwise the float value. -/
def pyZeroToNone (v : Val) : Option ℚ :=
  match v with
  | Val.none_ => none
  | _ =>
      match pyFloat? v with
      | none => none
      | some q => if q = 0 then none else some q

/-- `utils.empty_to_none` on a cell value.  `len()` of a number/boolean raises
(`none` = exception); a `None`/string value passes through with `""` collapsed. -/
def pyEmptyToNone : Val → Option Val
  | Val.none_ => some Val.none_
  | Val.str s => some (if s = "" then Val.none_ else Val.str s)
  | Val.num _ => none
  | Val.int _ => none
  | Val.bool _ => none

/-! ## A backtracking regex matcher

The name parser (`ModelNameParser.py`), the manufacturer-prefix table
(`ModelNameBuilder.ensure_manufacturer_prefix`) and the enrichment filter
(`ModelDesignationDeriver.enrich_model_designation`) all run Python `re` patterns.
The patterns are embedded as syntax trees (`RE`) and executed by a
continuation-passing backtracking matcher that reproduces Python's leftmost /
greedy / first-alternative semantics, including named-group capture
(last successful capture wins) and start-of-line anchoring. -/

/-- Regex syntax tree covering exactly the constructs used by the source patterns:
character classes, (optionally case-insensitive) literals, concatenation,
left-preferring alternation, greedy Kleene star, named capturing groups and the
`^` anchor.  `?`, `+` and bounded repetition are desugared during construction. -/
inductive RE where
  | eps
  | lit (c : Char)
  | cls (p : Char → Bool)
  | cat (a b : RE)
  | alt (a b : RE)
  | star (r : RE)
  | grp (name : String) (r : RE)
  | bol

/-- Captured spans: group name to (start, stop) character offsets; a later capture of
the same group replaces the earlier one (Python keeps the last repetition). -/
def Caps : Type := List (String × (Nat × Nat))

/-- Record a capture, replacing any previous span of the same group. -/
def capSet (caps : Caps) (name : String) (span : Nat × Nat) : Caps :=
  (name, span) :: (caps.filter (fun kv => kv.1 ≠ name))

/-- Look up a captured span. -/
def capGet (caps : Caps) (name : String) : Option (Nat × Nat) :=
  match caps.find? (fun kv => kv.1 = name) with
  | some (_, span) => some span
  | none => none

/-- A successful match: overall span plus the named-group captures. -/
structure REMatch where
  start : Nat
  stop : Nat
  caps : Caps

/-- Character comparison, case-insensitively when `ci` is set (ASCII folding, which is
what all embedded patterns and subject strings exercise). -/
def charEq (ci : Bool) (pat subj : Char) : Bool :=
  if ci then pat.toLower = subj.toLower else pat = subj

/-- The continuation-passing matcher.  `full` is the whole subject (for the `^`
anchor under MULTILINE), `rest`/`pos` the current suffix and offset, `caps` the
captures so far and `k` the continuation.  The fuel bounds recursion depth and
models Python's recursion limit; every run below stays far inside it. -/
def reRun (ci multiline : Bool) (full : List Char) :
    Nat → RE → List Char → Nat → Caps → (List Char → Nat → Caps → Option REMatch) →
    Option REMatch
  | 0, _, _, _, _, _ => none
  | _ + 1, RE.eps, rest, pos, caps, k => k rest pos caps
  | _ + 1, RE.bol, rest, pos, caps, k =>
      if pos = 0 || (multiline && full.getD (pos - 1) ' ' = '\n') then k rest pos caps
      else none
  | _ + 1, RE.lit c, rest, pos, caps, k =>
      match rest with
      | [] => none
      | c' :: rest' => if charEq ci c c' then k rest' (pos + 1) caps else none
  | _ + 1, RE.cls p, rest, pos, caps, k =>
      match rest with
      | [] => none
      | c' :: rest' => if p c' then k rest' (pos + 1) caps else none
  | fuel + 1, RE.cat a b, rest, pos, caps, k =>
      reRun ci multiline full fuel a rest pos caps
        (fun rest' pos' caps' => reRun ci multiline full fuel b rest' pos' caps' k)
  | fuel + 1, RE.alt a b, rest, pos, caps, k =>
      match reRun ci multiline full fuel a rest pos caps k with
      | some m => some m
      | none => reRun ci multiline full fuel b rest pos caps k
  | fuel + 1, RE.star r, rest, pos, caps, k =>
      match reRun ci multiline full fuel r rest pos caps
          (fun rest' pos' caps' =>
            if pos' = pos then none
            else reRun ci multiline full fuel (RE.star r) rest' pos' caps' k) with
      | some m => some m
      | none => k rest pos caps
  | fuel + 1, RE.grp name r, rest, pos, caps, k =>
      reRun ci multiline full fuel r rest pos caps
        (fun rest' pos' caps' => k rest' pos' (capSet caps' name (pos, pos')))

/-- Fuel that is sufficient for every subject/pattern pair handled below. -/
def reFuel : Nat := 4000

/-- Try to match `re` anchored at offset `pos` of `s` (like `re.match` at that offset). -/
def reMatchAt (ci multiline : Bool) (re : RE) (s : List Char) (pos : Nat) :
    Option REMatch :=
  reRun ci multiline s reFuel re (s.drop pos) pos []
    (fun _ stop caps => some ⟨pos, stop, caps⟩)

/-- `re.search`: try start offsets `pos, pos+1, ...` (at most `n` further ones);
leftmost match wins. -/
def reSearchFrom (ci multiline : Bool) (re : RE) (s : List Char) (pos : Nat) :
    Nat → Option REMatch
  | 0 => reMatchAt ci multiline re s pos
  | n + 1 =>
      match reMatchAt ci multiline re s pos with
      | some m => some m
      | none => reSearchFrom ci multiline re s (pos + 1) n

/-- `re.search(pattern, s, flags)` returning the leftmost match. -/
def reSearch (ci multiline : Bool) (re : RE) (s : String) : Option REMatch :=
  let cs := s.toList
  reSearchFrom ci multiline re cs 0 cs.length

/-- The substring of `s` between offsets `start` and `stop`. -/
def sliceStr (s : String) (start stop : Nat) : String :=
  String.mk ((s.toList.drop start).take (stop - start))

/-- `match.group(0)` — the overall matched substring. -/
def REMatch.group0 (m : REMatch) (s : String) : String :=
  sliceStr s m.start m.stop

/-- `match.group(name)` — `none` both when the pattern has no such group
(Python `IndexError`, always caught at the call sites embedded here) and when the
group did not participate in the match (Python `None`). -/
def REMatch.group? (m : REMatch) (s : String) (name : String) : Option String :=
  (capGet m.caps name).map (fun span => sliceStr s span.1 span.2)

/-! ### Pattern-construction helpers (regex AST combinators) -/

/-- Concatenation of a pattern list. -/
def rcat (rs : List RE) : RE :=
  match rs with
  | [] => RE.eps
  | [r] => r
  | r :: rest => RE.cat r (rcat rest)

/-- Left-preferring alternation of a pattern list. -/
def ror (rs : List RE) : RE :=
  match rs with
  | [] => RE.eps
  | [r] => r
  | r :: rest => RE.alt r (ror rest)

/-- A literal string. -/
def rs (s : String) : RE := rcat (s.toList.map RE.lit)

/-- Greedy `?`. -/
def ropt (r : RE) : RE := RE.alt r RE.eps

/-- Greedy `+`. -/
def rplus (r : RE) : RE := RE.cat r (RE.star r)

/-- Greedy `*`. -/
def rstar (r : RE) : RE := RE.star r

/-- `\d`. -/
def rdigit : RE := RE.cls Char.isDigit

/-- `\s` (the whitespace class as matched by Python on the embedded subjects). -/
def isPySpace (c : Char) : Bool :=
  c = ' ' || c = '\t' || c = '\n' || c = '\r' || c = '\x0b' || c = '\x0c'

/-- `\s` as a pattern. -/
def rspace : RE := RE.cls isPySpace

/-- `\w` (ASCII word characters plus the non-ASCII letters appearing in the source
patterns; Python's Unicode `\w` agrees with this on every embedded subject). -/
def isPyWord (c : Char) : Bool :=
  c.isAlphanum || c = '_' || c = 'ä' || c = 'Ä'

/-- `\w` as a pattern. -/
def rword : RE := RE.cls isPyWord

/-- `[A-Z]` under `re.IGNORECASE` (which lets it match lower-case letters too). -/
def razUpperCI : RE := RE.cls (fun c => ('A' ≤ c && c ≤ 'Z') || ('a' ≤ c && c ≤ 'z'))

/-- `[a-z]` under `re.IGNORECASE`. -/
def razLowerCI : RE := razUpperCI

/-- A character class given by an explicit character list (e.g. `[-|/]`). -/
def rin (cs : List Char) : RE := RE.cls (fun c => cs.contains c)

/-- `\d{lo}` to `\d{lo+opt}` digits (bounded repetition, greedy). -/
def rdigits (lo opt : Nat) : RE :=
  rcat (List.replicate lo rdigit ++ List.replicate opt (ropt rdigit))

/-- `\d+(\.\d+)?` — the decimal-number shape used by most power/diameter groups. -/
def rnum : RE := rcat [rplus rdigit, ropt (rcat [RE.lit '.', rplus rdigit])]

/-- `(-|\s)` — dash or whitespace. -/
def rdashsp : RE := RE.alt (RE.lit '-') rspace

/-- A named group. -/
def rg (name : String) (r : RE) : RE := RE.grp name r

/-- `(\s|-)` — whitespace or dash (this alternation order also occurs). -/
def rspdash : RE := RE.alt rspace (RE.lit '-')

/-- `\d+(\.\d)?` — a number with at most one fractional digit. -/
def rnum1 : RE := rcat [rplus rdigit, ropt (rcat [RE.lit '.', rdigit])]

/-! ## ModelNameBuilder.ensure_manufacturer_prefix — the product-code prefix table -/

/-- The ordered `(pattern, manufacturer)` table of
`ModelNameBuilder.ensure_manufacturer_prefix` (each pattern starts with `^` in the
source; searched with `re.IGNORECASE | re.MULTILINE`).  The sixteenth entry's
manufacturer name carries the mojibake spelling present in the source file. -/
def prefixTable : List (RE × String) :=
  [ (rcat [RE.bol, rs "eno ", rplus rdigit], "Eno Energy"),
    (rcat [RE.bol, ror [rs "SWP", rs "SPW"], ropt (RE.lit '-'), rdigit, rdigit], "Solid Wind"),
    (rcat [RE.bol, rs "SWT-", ror [rs "DD", rplus rdigit]], "Siemens"),
    (rcat [RE.bol, rs "LTW", rplus rdigit], "Leitwind"),
    (rcat [RE.bol, rs "LWT", rplus rdigit], "Windmolens op Maat"),
    (rcat [RE.bol, rs "NTK", ropt rspace, rplus rdigit, RE.lit '/', rplus rdigit], "Nordtank"),
    (rcat [RE.bol, rs "MWT", ropt rdashsp, rplus rdigit], "Mitsubishi"),
    (rcat [RE.bol, rs "SG", rdashsp, ropt (RE.lit 'D'), rplus rdigit], "Siemens Gamesa"),
    (rcat [RE.bol, rs "AW", ropt rdashsp, rplus rdigit], "Acciona"),
    (rcat [RE.bol, rs "DW", ropt rdashsp, rplus rdigit], "DirectWind"),
    (rcat [RE.bol, rs "EN", ropt rdashsp, rplus rdigit], "Envision"),
    (rcat [RE.bol, ror [rs "BW", rs "WB"], rdigit, rdigit], "BestWatt"),
    (rcat [RE.bol, ror [rs "TW", rs "WR", rs "TZ"], ropt rspace, rplus rdigit], "Tacke"),
    (rcat [RE.bol, ror [rs "EN", rs "GE"], rdashsp,
      ropt (rcat [rs "Haliade", ropt (rs "-X"), rs " "]), rplus rdigit], "General Electric"),
    (rcat [RE.bol, rs "MM", ropt rdashsp, rplus rdigit], "REpower"),
    (rcat [RE.bol, ror [rs "FL", rs "FUH"], ropt rdashsp, rplus rdigit], "Fuhrl√§nder"),
    (rcat [RE.bol, rs "B", ropt rdashsp, rplus rdigit], "Bonus"),
    (rcat [RE.bol, rs "D", rplus rdigit], "DeWind"),
    (rcat [RE.bol, rs "E", ropt rdashsp, rdigits 2 1], "Enercon"),
    (rcat [RE.bol, rs "F", ropt rdashsp, rplus rdigit], "Frisia"),
    (rcat [RE.bol, rs "G", ropt rdashsp, rdigits 2 1], "Gamesa"),
    (rcat [RE.bol, rs "K", ropt rdashsp, rplus rdigit], "Kenersys"),
    (rcat [RE.bol, ror [rs "NM", rs "M"], ropt rdashsp, rplus rdigit], "NEG Micon"),
    (rcat [RE.bol, rs "N", ropt rdashsp, rplus rdigit], "Nordex"),
    (rcat [RE.bol, rs "V", ropt rdashsp, rdigits 2 1], "Vestas"),
    (rcat [RE.bol, ror [rs "W", rs "WW"], ropt rdashsp, rdigits 2 2], "Wind World"),
    (rcat [RE.bol, ror [rs "GW", rs "GWH"], ropt rdashsp, rplus rdigit], "Goldwind") ]

/-- `ModelNameBuilder.ensure_manufacturer_prefix`: prepend the manufacturer of the
first matching product-code pattern, if any. -/
def ensureManufacturerPfx (modelName : String) : String :=
  match prefixTable.find? (fun pm => (reSearch true true pm.1 modelName).isSome) with
  | some (_, manufacturer) => manufacturer ++ " " ++ modelName
  | none => modelName

/-! ## ModelNameParser.py — the ordered manufacturer pattern table -/

/-- A parse rule: the regular expression (anchored at the string start by the
parse loop) and the extracted `(?P<manufacturer>...)` sub-pattern as computed by
`get_manufacturer_match_pattern` (`none` both for patterns without a manufacturer
group and for the catch-all `(?P<manufacturer>\w+)` group, which the source maps
to `None`). -/
structure NameRule where
  re : RE
  mfr : Option RE

/-- Manufacturer group of the Vestas rule. -/
def mVestas : RE :=
  ror [rs "Vestas", rs "MHI Vestas Offshore", rs "MHI Vestas", rs "MVOW"]

/-- Manufacturer group of the two Siemens/Gamesa/Bonus/SWT rules. -/
def mSiemens : RE :=
  ror [rcat [rs "Siemens", rspdash, rs "Gamesa"], rs "Siemens", rs "Gamesa",
    rcat [ropt (rcat [rs "AN", rdashsp]), rs "Bonus"], rs "SWT"]

/-- Manufacturer group of the Senvion/REpower rule. -/
def mSenvion : RE :=
  ror [rs "Senvion", rs "REpower", rs "Jacobs PowerTec JPT", rs "Jacobs Wind Electric",
    rs "Jacobs", rs "HSW Husumer Schiffs", rs "Kenersys"]

/-- Manufacturer group of the GE rule. -/
def mGE : RE :=
  ror [rs "GE General Electric", rs "General Electric", rs "GE", rs "Enron", rs "Cypress"]

/-- Manufacturer group of the NEG Micon rule. -/
def mNegMicon : RE :=
  ror [rcat [rs "NEG", rspdash, rs "Micon"], rs "NEG", rs "Micon", rs "NEG Wind World",
    rs "Wind World"]

/-- Manufacturer group of the Nordtank rule. -/
def mNordtank : RE := ror [rs "Nordtank Energy Group", rs "Nordtank", rs "NEG"]

/-- Manufacturer group of the Fuhrländer rules. -/
def mFuhr : RE := ror [rs "Fuhrländer", rs "Fuhrlaender"]

/-- Manufacturer group of the WTN rule. -/
def mWTN : RE :=
  ror [rs "WTN Wind TechnikNord", rs "Wind TechnikNord", rs "WindTechnikNord", rs "WTN"]

/-- The ordered rule table of `ModelNameParser.parse_model_name`, in source order;
first match wins.  Each rule is searched with `^` prepended under `re.IGNORECASE`. -/
def nameRules : List NameRule := [
  -- Vestas pattern (e.g. V90, V112)
  ⟨rcat [rg "manufacturer" mVestas, rspdash, RE.lit 'V', ropt rdashsp,
    rg "diameter" (rdigits 2 1),
    ropt (rcat [rstar rspace, RE.lit '-', rstar rspace, rg "power" rnum])],
   some mVestas⟩,
  -- Enercon pattern (e.g. E40, E82, E101)
  ⟨rcat [rg "manufacturer" (rs "Enercon"), ropt (rs " E"), ropt rdashsp,
    rg "diameter" (rdigits 2 1), ropt (rcat [rs " EP", rdigit]), ropt (rcat [rs " E", rdigit]),
    ropt (rcat [rs " ", rg "power" rnum]),
    ropt (rcat [ropt rspace, RE.lit '/', ropt rspace, rg "powerOW" (rplus rdigit),
      ropt (RE.lit '.'), ropt (rg "diameter2" (rplus rdigit))])],
   some (rs "Enercon")⟩,
  -- AN Bonus (e.g. AN Bonus 450/36)
  ⟨rcat [rg "manufacturer" (rcat [rs "AN", rdashsp, rs "Bonus"]), rs " ",
    rg "powerKW" rnum, RE.lit '/', rg "diameter" (rplus rdigit)],
   some (rcat [rs "AN", rdashsp, rs "Bonus"])⟩,
  -- Bonus (e.g. Bonus 37/450)
  ⟨rcat [rg "manufacturer" (ror [rs "Bonus", rs "Combi"]), rs " ",
    rg "diameter" (rplus rdigit), RE.lit '/', rg "powerKW" rnum],
   some (ror [rs "Bonus", rs "Combi"])⟩,
  -- Gamesa / Bonus (e.g. Bonus-76-2.0, Gamesa G49-2.0)
  ⟨rcat [rg "manufacturer" (ror [rs "Gamesa", rs "Bonus"]), rspdash,
    ropt (ror [RE.lit 'G', RE.lit 'B']), ropt rdashsp, rg "diameter" (rplus rdigit),
    ropt (rcat [rin ['-', '|', '/'], rg "power" rnum])],
   some (ror [rs "Gamesa", rs "Bonus"])⟩,
  -- Siemens DD variant (e.g. SWT-DD-3.6-120)
  ⟨rcat [rg "manufacturer" mSiemens, ropt rspace, ropt (ror [rs "SWT", rs "SG", rs "G"]),
    rcat [ropt rdashsp, rs "DD-", rg "power" rnum], RE.lit '-',
    rg "diameter" (rplus rdigit)],
   some mSiemens⟩,
  -- Siemens / Gamesa / Siemens-Gamesa pattern (e.g. SWT-3.6-120)
  ⟨rcat [rg "manufacturer" mSiemens, ropt rspace, ropt (ror [rs "SWT", rs "SG", rs "G"]),
    ropt (rcat [ropt rdashsp, ror [rs "DD", rcat [ropt (RE.lit 'D'), rg "power" rnum]]]),
    RE.lit '-', ropt (rg "diameter" (rplus rdigit))],
   some mSiemens⟩,
  -- Kenersys K pattern
  ⟨rcat [rg "manufacturer" (rs "Kenersys"), rs " K", ropt rspace,
    rg "diameter" (rplus rdigit), rspace, rg "powerMW" rnum, rs "MW"],
   some (rs "Kenersys")⟩,
  -- Senvion, REpower pattern
  ⟨rcat [rg "manufacturer" mSenvion, ror [rspace, RE.lit '-', RE.lit '.'], ropt rspace,
    ropt (ror [rs "M", rs "HSW"]), ropt rspace,
    ropt (rg "power" (rcat [rplus rdigit, ropt (rcat [RE.lit '.', ror [rplus rdigit, rs "X"]])])),
    ropt (rcat [ror [rs "M", rs "D", rs "/", rspace, rs "-"], ropt rspace,
      rg "diameter" (rplus rdigit)]),
    ropt (rcat [ror [rs "/", rspace], rg "power2" rnum])],
   some mSenvion⟩,
  -- Haliade turbines (e.g. Haliade-6)
  ⟨rcat [rg "manufacturer" (rs "Haliade"), rspdash, rg "power" rnum1],
   some (rs "Haliade")⟩,
  -- Mitsubishi turbines; e.g. Mitsubishi MWT-250
  ⟨rcat [rg "manufacturer" (rs "Mitsubishi"), rs " MWT-", rg "diameter" (rplus rdigit),
    RE.lit '/', rg "power" rnum1],
   some (rs "Mitsubishi")⟩,
  -- Mitsubishi MWT-S variant (note the lower-case k in the group name, as in the source)
  ⟨rcat [rg "manufacturer" (rs "Mitsubishi"), rs " MWT-", ropt (RE.lit 'S'),
    rg "powerkW" rnum1, ropt (rcat [RE.lit '-', rg "diameter" (rplus rdigit)])],
   some (rs "Mitsubishi")⟩,
  -- Adwen turbines; e.g. Adwen AD 5-135
  ⟨rcat [rg "manufacturer" (rs "Adwen"), rs " AD ", rg "powerMW" rnum1, RE.lit '-',
    rg "diameter" (rplus rdigit)],
   some (rs "Adwen")⟩,
  -- IZAR TURBINAS turbines
  ⟨rcat [rg "manufacturer" (ror [rs "Izar Turbinas", rs "Izar"]), rs " Bonus ",
    rg "diameter" (rplus rdigit), ror [rs "-", rs "/"], rg "power" rnum1],
   some (ror [rs "Izar Turbinas", rs "Izar"])⟩,
  -- Made - Endesa turbines
  ⟨rcat [rg "manufacturer" (ror [rcat [rs "Made", ropt rspace, RE.lit '-', ropt rspace,
      rs "Endesa"], rs "Made", rs "Endesa"]), rs " ", ror [rs "AE", rs "M"], rdashsp,
    rg "diameter" (rplus rdigit), ropt (rcat [ror [rs "-", rs "/"], rg "power" rnum1])],
   some (ror [rcat [rs "Made", ropt rspace, RE.lit '-', ropt rspace, rs "Endesa"],
     rs "Made", rs "Endesa"])⟩,
  -- Suzlon turbines; e.g. Suzlon S 60-1000
  ⟨rcat [rg "manufacturer" (rs "Suzlon"), rs " S", ropt rspdash,
    rg "diameter" (rplus rdigit), ropt (rcat [ror [rs "-", rs "/"], rg "power" rnum1])],
   some (rs "Suzlon")⟩,
  -- Reference turbines (e.g. REF-6.0, REF-8.0)
  ⟨rcat [rg "manufacturer" (rs "REF"), rspdash, rg "powerMW" rnum1],
   some (rs "REF")⟩,
  -- Nordex (e.g. Nordex N131/3300)
  ⟨rcat [rg "manufacturer" (rs "Nordex"), rs " N", rg "diameter" (rplus rdigit),
    ropt (rcat [rcat [RE.lit '/', rg "power"
        (rcat [rplus rdigit, ropt (rcat [RE.lit '.', ror [rplus rdigit, rs "X", rs "x"]])])],
      ropt (rcat [RE.lit '-', rdigit, ropt (rcat [RE.lit '.', rplus rdigit])])])],
   some (rs "Nordex")⟩,
  -- Tacke (e.g. Tacke TW 1.5i)
  ⟨rcat [rg "manufacturer" (rs "Tacke"), rplus rspace, ror [rs "TW", rs "WR", rs "TZ"],
    ropt rspace, rg "power" (rcat [rplus rdigit, RE.lit '.', rplus rdigit]),
    rplus razLowerCI],
   some (rs "Tacke")⟩,
  -- BARD pattern (e.g. BARD 6.5, BARD VM)
  ⟨rcat [rg "manufacturer" (rs "BARD"), rs " ", rg "power" (ror [rnum, rs "V"]),
    ropt (RE.lit 'M')],
   some (rs "BARD")⟩,
  -- GE/Enron pattern (e.g. GE 3.2 -103)
  ⟨rcat [rg "manufacturer" mGE,
    ropt (rcat [rplus rspace,
      ror [rs "Wind", rs "Energy", rs "EN", rs "GE", rs "Haliade", rs "Haliade-X"]]),
    rspdash, rg "power" rnum, ropt rspace,
    ropt (rcat [ropt (rcat [RE.lit '-', rg "power_max" rnum]), RE.lit '-', ropt rspace,
      ropt (rg "diameter" rnum)]),
    rstar (RE.lit 'w')],
   some mGE⟩,
  -- NEG Micon pattern (e.g. NEG Micon NM 43/600)
  ⟨rcat [rg "manufacturer" mNegMicon, rplus rspace, ropt (ror [rs "NM", rs "M", rs "W", rs "WW"]),
    rstar rspace, rg "diameter" (rplus rdigit), ropt (RE.lit 'C'),
    ropt (rcat [ror [rs "/", rs "-"], rg "powerKW" (rplus rdigit)])],
   some mNegMicon⟩,
  -- Nordtank pattern (e.g. Nordtank NTK 1500 64)
  ⟨rcat [rg "manufacturer" mNordtank,
    ropt (rcat [rplus rspace, rs "NTK", ropt rspace,
      rcat [rg "powerKW" (rplus rdigit), ropt (rcat [RE.lit '-', rg "unknown" (rplus rdigit)])],
      ropt (rcat [ror [rs "/", rspace], rg "diameter" (rplus rdigit)]),
      ropt (rcat [ror [rs "/", rspace], rg "hub_height" (rplus rdigit)])])],
   some mNordtank⟩,
  -- Goldwind/Acciona/Frisia/Vensys pattern
  ⟨rcat [rg "manufacturer" (ror [rs "Goldwind", rs "Acciona", rs "Frisia", rs "Vensys"]),
    rplus rspace, ropt (ror [rs "S", rs "GW", rs "GWH", rs "AW", rs "F"]), ropt rdashsp,
    rg "diameter" (rplus rdigit),
    ropt (rcat [ropt rspace, RE.lit '/', ropt rspace, rg "powerKW" (rplus rdigit)])],
   some (ror [rs "Goldwind", rs "Acciona", rs "Frisia", rs "Vensys"])⟩,
  -- Leitwind pattern (e.g. Leitwind LTW42 250)
  ⟨rcat [rg "manufacturer" (rs "Leitwind"), rplus rspace, rs "LTW", ropt rspace,
    rg "diameter" (rplus rdigit), rspace, rg "powerKW" (rplus rdigit)],
   some (rs "Leitwind")⟩,
  -- Fuhrländer LLC pattern
  ⟨rcat [rg "manufacturer" mFuhr, rs " LLC WTU", rg "power" rnum, RE.lit '-',
    rg "diameter" (rplus rdigit)],
   some mFuhr⟩,
  -- Fuhrländer FL pattern
  ⟨rcat [rg "manufacturer" mFuhr, rs " FL", ropt (rs " MD"), rs " ", rg "powerKW" rnum,
    ropt (rcat [RE.lit '/', rg "diameter" (rplus rdigit)])],
   some mFuhr⟩,
  -- Fuhrländer FUH pattern
  ⟨rcat [rg "manufacturer" mFuhr, rs " FUH", ropt rdashsp, rg "radius" (rplus rdigit),
    rs " G", rplus rdigit, rs " D", rg "powerKW" rnum],
   some mFuhr⟩,
  -- Envision pattern
  ⟨rcat [rg "manufacturer" (rs "Envision"), rs " ", ror [rs "EN", rs "N"], rs " ",
    rg "diameter" (rplus rdigit), RE.lit '-', rg "power" rnum],
   some (rs "Envision")⟩,
  -- IWT pattern (e.g. IWT V90)
  ⟨rcat [rg "manufacturer" (rs "IWT"), rplus rspace, RE.lit 'V',
    rg "diameter" (rplus rdigit)],
   some (rs "IWT")⟩,
  -- Eno Energy pattern
  ⟨rcat [rg "manufacturer" (rs "Eno Energy"), rplus rspace, rs "eno ",
    rg "diameter" (rplus rdigit),
    ropt (rcat [rspace, rg "power" (rcat [rplus rdigit, RE.lit '.', rplus rdigit])])],
   some (rs "Eno Energy")⟩,
  -- DeWind (e.g. DeWind D6 64/1250)
  ⟨rcat [rg "manufacturer" (rs "DeWind"), rplus rspace, RE.lit 'D',
    rg "diameterDm" rnum,
    ropt (rcat [rspace, rg "diameter" (rplus rdigit), RE.lit '/',
      rg "powerKW" (rplus rdigit)])],
   some (rs "DeWind")⟩,
  -- DDIS
  ⟨rcat [rg "manufacturer" (rs "DDIS"), rplus rspace, rs "DDIS",
    rg "diameter" (rplus rdigit)],
   some (rs "DDIS")⟩,
  -- Aircon models
  ⟨rcat [rg "manufacturer" (rs "Aircon"), rs " ", rg "powerDW" (rplus rdigit),
    ropt (rs " S")],
   some (rs "Aircon")⟩,
  -- BestWatt
  ⟨rcat [rg "manufacturer" (rs "BestWatt"), rplus rspace, ror [rs "BW", rs "WB"],
    rg "powerKW" (rplus rdigit)],
   some (rs "BestWatt")⟩,
  -- KVA Vind models
  ⟨rcat [rg "manufacturer" (rs "KVA Vind"),
    ropt (rcat [rplus rspace, rs "KVA", ropt (rs " Vind")]), rs " ",
    rg "diameter" (rplus rdigit), RE.lit '-', rg "powerKW" (rplus rdigit)],
   some (rs "KVA Vind")⟩,
  -- Gaia (e.g. 133-11kW lattice tower)
  ⟨rcat [rg "manufacturer" (ror [rs "Gaia", rs "Gaia Wind"]), rs " ",
    rg "swept_area" (rplus rdigit), RE.lit '-', rg "powerKW" (rplus rdigit),
    ropt (rcat [ropt rspace, rs "kW"])],
   some (ror [rs "Gaia", rs "Gaia Wind"])⟩,
  -- RRB Energy
  ⟨rcat [rg "manufacturer" (ror [rs "RRB", rs "RRB Energy"]),
    ropt (rcat [rplus rspace, rs "Pawan Shakthi"]), rs " ", ror [rs "V", rs "PS"],
    ropt (rg "diameter" (rplus rdigit)),
    ropt (rcat [RE.lit '-', rg "powerKW" (rplus rdigit)])],
   some (ror [rs "RRB", rs "RRB Energy"])⟩,
  -- EAZ Wind
  ⟨rcat [rg "manufacturer" (rs "EAZ Wind"),
    ropt (rcat [rplus rspace, rs "EAZ-", rg "diameter" (rs "Twelve")])],
   some (rs "EAZ Wind")⟩,
  -- Solid Wind
  ⟨rcat [rg "manufacturer" (rs "Solid Wind"), rs " ", ror [rs "SWP", rs "SPW"],
    ropt rdashsp, rg "powerKW" rnum],
   some (rs "Solid Wind")⟩,
  -- Windmolens op Maat / Logic
  ⟨rcat [rg "manufacturer" (ror [rs "Windmolens op Maat", rs "Logic"]), rdashsp,
    ropt (rs "LWT"), rg "powerKW" rnum, ropt (rcat [ropt rspace, rs "kW"])],
   some (ror [rs "Windmolens op Maat", rs "Logic"])⟩,
  -- EWT Directwind 900/54
  ⟨rcat [rg "manufacturer" (ror [rs "EWT", rs "DirectWind"]), rs " ", ropt (rs "DW "),
    rg "diameter" (rplus rdigit), ror [rs "-", rs "*", rspace],
    rg "power" (rcat [rnum1, ropt (rg "known_unit" (rs "MW"))])],
   some (ror [rs "EWT", rs "DirectWind"])⟩,
  -- WTN Wind TechnikNord
  ⟨rcat [rg "manufacturer" mWTN, rs " WTN ", rg "powerKW" rnum,
    ropt (rcat [RE.lit '/', rg "diameter" (rplus rdigit)])],
   some mWTN⟩,
  -- FO_ pattern (e.g. FO_012234); no manufacturer group
  ⟨rcat [rs "FO_", rg "diameter" (rplus rdigit), rg "manufacturer_code" (rcat [rdigit, rdigit])],
   none⟩,
  -- Simplified manufacturer letter+number pattern (the catch-all `\w+` manufacturer
  -- group is mapped to no manufacturer pattern by `get_manufacturer_match_pattern`)
  ⟨rcat [rg "manufacturer" (rplus rword), rs " ", rplus razUpperCI,
    ropt (ror [rspace, rs "-", rs "/"]), rplus rdigit,
    ropt (rcat [ror [rs "-", rs ".", rs "/"], rplus rdigit,
      ropt (rcat [RE.lit '.', rplus rdigit])])],
   none⟩,
  -- Simplified letter+number pattern (fallback); no manufacturer group
  ⟨rcat [rplus razUpperCI, rplus rdigit,
    ropt (rcat [ror [rs "-", rs ".", rs "/"], rplus rdigit,
      ropt (rcat [RE.lit '.', rplus rdigit])])],
   none⟩ ]

/-! ## ModelNameParser.parse_model_name -/

/-- `get_wf101_manufacturer.get_wf101_manufacturer`: manufacturer code to name,
with the override section of the source already applied (its later assignments
overwrite the earlier ones for codes 0, 1, 3, 6 and 43). -/
def getWf101Manufacturer (code : Nat) : Option String :=
  if code = 0 then some "Senvion"
  else if code = 1 then some "Vestas"
  else if code = 2 then some "NORDEX"
  else if code = 3 then some "GE General Electric"
  else if code = 4 then some "Fuhrlaender/Protec MD"
  else if code = 5 then some "NEG MICON/Nordtank"
  else if code = 6 then some "Siemens"
  else if code = 7 then some "DeWIND"
  else if code = 8 then some "Enercon"
  else if code = 9 then some "VENSYS"
  else if code = 10 then some "Senvion OFFSHORE"
  else if code = 11 then some "Vestas OFFSHORE"
  else if code = 16 then some "SWT OFFSHORE"
  else if code = 20 then some "Tacke"
  else if code = 21 then some "KNMI onshore reference turbine"
  else if code = 22 then some "Goldwind (China)"
  else if code = 23 then some "Leitwind (Italy)"
  else if code = 24 then some "ACCIONA (Spain)"
  else if code = 25 then some "KONCAR Croatian manufacturer"
  else if code = 26 then some "Frisia"
  else if code = 27 then some "Schuetz"
  else if code = 28 then some "Envision (China Shanghai)"
  else if code = 29 then some "Eno Energy"
  else if code = 30 then some "Haliade OFFSHORE"
  else if code = 31 then some "REF OFFSHORE (KNMI)"
  else if code = 32 then some "Adwen"
  else if code = 33 then some "Areva"
  else if code = 34 then some "BARD"
  else if code = 40 then some "DDIS France"
  else if code = 41 then some "FWT"
  else if code = 42 then some "Wind world (DK)"
  else if code = 43 then some "Kleinwind GmbH"
  else if code = 44 then some "Seewind"
  else if code = 45 then some "WTN Windtechnik Nord"
  else none

/-- `re.sub(r"\s\s+", " ", s)`: collapse every run of two or more whitespace
characters into a single space (a lone whitespace character is left as-is).
The flag is true while skipping the tail of a run already replaced. -/
def collapseSpacesAux : Bool → List Char → List Char
  | _, [] => []
  | true, c :: rest =>
      if isPySpace c then collapseSpacesAux true rest
      else c :: collapseSpacesAux false rest
  | false, [c] => [c]
  | false, c :: c2 :: rest2 =>
      if isPySpace c then
        if isPySpace c2 then ' ' :: collapseSpacesAux true rest2
        else c :: collapseSpacesAux false (c2 :: rest2)
      else c :: collapseSpacesAux false (c2 :: rest2)

/-- The exact binary value of Python's `math.pi`. -/
def piFloat : ℚ := 884279719003555 / 281474976710656

/-- Rational approximation of `math.sqrt` (used only by the Micon/Gaia sweep-area
corrections of the parser, branches not exercised by any theorem in this file). -/
def sqrtApprox (q : ℚ) : ℚ :=
  if q ≤ 0 then 0 else (Nat.sqrt (q * 10 ^ 12).floor.toNat : ℚ) / 10 ^ 6

/-- The structured result of `parse_model_name` (the returned dict).  `power` may hold
a leftover string when the captured text is not float-convertible, exactly as in the
source. -/
structure ParseResult where
  model_name : String
  model_designation : Option String
  manufacturer : Option String
  manufacturerPattern : Option RE
  diameter : Option ℚ
  power : Option Val
  is_known_manufacturer : Bool

/-- Truthiness of the parser's `power` variable. -/
def powerTruthy : Option Val → Bool
  | some v => v.truthy
  | none => false

/-- Python float floor division `p // m` as a rational. -/
def pyFloorDiv (p m : ℚ) : ℚ := ((⌊p / m⌋ : ℤ) : ℚ)

/-- Python float modulo `p % m` as a rational. -/
def pyMod (p m : ℚ) : ℚ := p - m * pyFloorDiv p m

/-- The trailing designation fix-up of `parse_model_name`: when the first dash of the
designation precedes the first space (and is not at position 0), replace it by a
space. -/
def dashToSpaceFix (md : String) : String :=
  let cs := md.toList
  let posDash := cs.findIdx? (fun c => c = '-')
  let posSpace := cs.findIdx? (fun c => c = ' ')
  match posDash with
  | none => md
  | some i =>
      let beforeSpace :=
        match posSpace with
        | none => true
        | some j => i < j
      if i > 0 && beforeSpace then
        String.mk (cs.take i ++ ' ' :: cs.drop (i + 1))
      else md

/-- The per-match extraction block of `parse_model_name` (the body of the
`if match:` branch, translated step by step; each `let` corresponds to one
assignment / guarded mutation of the source). -/
def extractFromMatch (s : String) (rule : NameRule) (m : REMatch) : ParseResult :=
  let mfrPattern := rule.mfr
  let isKnown := mfrPattern.isSome
  let md0 : String := m.group0 s
  -- manufacturer = match.group("manufacturer"), with the wf101 fallback
  let manufacturer0 : Option String := m.group? s "manufacturer"
  let manufacturer1 : Option String :=
    if !optStrTruthy manufacturer0 then
      match (m.group? s "manufacturer_code").bind strDigitsToNat? with
      | some code => getWf101Manufacturer code
      | none => manufacturer0
    else manufacturer0
  -- dash clean-up for the 'Common turbine models' spellings
  let manufacturer : Option String :=
    if manufacturer1 = some "NEG-Micon" || manufacturer1 = some "AN-Bonus" then
      manufacturer1.map (fun mf => charReplace mf '-' ' ')
    else manufacturer1
  -- power = match.group("power") (str kept when not float-convertible), then the
  -- BARD roman-numeral and Senvion round-off specials
  let power0 : Option Val :=
    (m.group? s "power").map (fun p =>
      match strToRat? p with
      | some q => Val.num q
      | none => Val.str p)
  let (power1, md1, ku1) : Option Val × String × Option String :=
    if manufacturer = some "BARD" && power0 = some (Val.str "V") then
      (some (Val.num 5000), "BARD 5.0", some "kW")
    else if manufacturer = some "Senvion" && power0 = some (Val.num 6) then
      (some (Val.num 6200), "Senvion 6.2", some "kW")
    else (power0, md0, none)
  -- power2 overrides when positive
  let power2 : Option Val :=
    match (m.group? s "power2").bind strToRat? with
    | some q => if q > 0 then some (Val.num q) else power1
    | none => power1
  -- powerOW (hectowatt) fallback
  let (power3, ku3) : Option Val × Option String :=
    match (m.group? s "powerOW").bind strToRat? with
    | some q =>
        let q' := if q < 100 then q * 100 else q
        if !powerTruthy power2 then (some (Val.num q'), some "kW") else (power2, ku1)
    | none => (power2, ku1)
  -- powerDW (decawatt) fallback
  let (power4, ku4) : Option Val × Option String :=
    match (m.group? s "powerDW").bind strToRat? with
    | some q =>
        let q' := if q < 100 then q * 10 else q
        if !powerTruthy power3 then (some (Val.num q'), some "kW") else (power3, ku3)
    | none => (power3, ku3)
  -- powerMW / powerKW unconditional overrides
  let (power5, ku5) : Option Val × Option String :=
    match (m.group? s "powerMW").bind strToRat? with
    | some q => (some (Val.num (q * 1000)), some "kW")
    | none => (power4, ku4)
  let (power6, ku6) : Option Val × Option String :=
    match (m.group? s "powerKW").bind strToRat? with
    | some q => (some (Val.num q), some "kW")
    | none => (power5, ku5)
  -- diameter, with the Micon sweep-area correction
  let diameter0 : Option ℚ :=
    match m.group? s "diameter" with
    | none => none
    | some ds =>
        if ds = "Twelve" then some 12
        else
          match strToRat? ds with
          | none => none
          | some d =>
              if optStrTruthy manufacturer && manufacturer.map pyUpper = some "MICON" then
                some (2 * sqrtApprox (d / piFloat))
              else some d
  -- diameter2 overrides when positive
  let diameter1 : Option ℚ :=
    match (m.group? s "diameter2").bind strToRat? with
    | some q => if q > 0 then some q else diameter0
    | none => diameter0
  -- diameterDm (decameter) fallback
  let diameter2 : Option ℚ :=
    match (m.group? s "diameterDm").bind strToRat? with
    | some q =>
        if !optTruthy diameter1 && q > 0 then some (10 * q) else diameter1
    | none => diameter1
  -- swept-area fallback
  let diameter3 : Option ℚ :=
    match (m.group? s "swept_area").bind strToRat? with
    | some a => if !optTruthy diameter2 then some (2 * sqrtApprox (a / piFloat)) else diameter2
    | none => diameter2
  -- radius fallback
  let diameter4 : Option ℚ :=
    match (m.group? s "radius").bind strToRat? with
    | some r => if r > 0 && !optTruthy diameter3 then some (2 * r) else diameter3
    | none => diameter3
  -- Wind World hectometer fix
  let diameter5 : Option ℚ :=
    match manufacturer, diameter4, power6 with
    | some mf, some d, some _ =>
        if pyUpper mf = "WIND WORLD" && d > 1000 then some (d / 100) else diameter4
    | _, _, _ => diameter4
  -- NEG MICON diameter/power swap
  let (diameter6, power7) : Option ℚ × Option Val :=
    match manufacturer, diameter5, power6 with
    | some mf, some d, some (Val.num p) =>
        if (pyUpper mf = "NEG MICON" || pyUpper mf = "NEG-MICON") && d > p then
          (some p, some (Val.num d))
        else (diameter5, power6)
    | _, _, _ => (diameter5, power6)
  -- WTN mixed power/diameter field split; the source compares `manufacturer.upper()`
  -- against a list of mixed-case spellings, so only the spelling "WTN" can ever hit
  let (diameter7, power8) : Option ℚ × Option Val :=
    match manufacturer, diameter6, power7 with
    | some mf, none, some (Val.num p) =>
        if (pyUpper mf = "WTN Wind TechnikNord" || pyUpper mf = "Wind TechnikNord"
              || pyUpper mf = "WindTechnikNord" || pyUpper mf = "WTN")
            && pyMod p 10 ≠ 0 then
          (some (pyMod p 100), some (Val.num (100 * pyFloorDiv p 100)))
        else (diameter6, power7)
    | _, _, _ => (diameter6, power7)
  -- known_unit from the pattern's own group
  let ku7 : Option String :=
    match m.group? s "known_unit" with
    | some u => if ku6 = none && u.length > 0 then some "kW" else ku6
    | none => ku6
  -- final kW normalization
  let power9 : Option Val :=
    if powerTruthy power8 then
      let powerFloat : Option ℚ :=
        match power8 with
        | some (Val.str p) => strToRat? (charReplace (pyLower p) 'x' '0')
        | some (Val.num q) => some q
        | _ => none
      match powerFloat with
      | some pf => (powerToKw (some pf) ku7 diameter7).map Val.num
      | none => power8
    else power8
  ⟨s, some (dashToSpaceFix md1), manufacturer, mfrPattern, diameter7, power9, isKnown⟩

/-- `ModelNameParser.parse_model_name`: normalize whitespace and decimal separators,
prepend an inferred manufacturer, then try the rule table in order — first match
wins; a miss leaves every field empty. -/
def parseModelName (modelName : String) : ParseResult :=
  let s1 := String.mk (collapseSpacesAux false modelName.toList)
  let s2 := charReplace s1 ',' '.'
  let s3 := ensureManufacturerPfx s2
  match nameRules.findSome? (fun rule =>
      (reMatchAt true false rule.re s3.toList 0).map (fun m => (rule, m))) with
  | some (rule, m) => extractFromMatch s3 rule m
  | none => ⟨s3, none, none, none, none, none, false⟩

/-! ## ModelNameBuilder.build_model_designation -/

/-- Round to the nearest integer, ties to even — the rounding used by Python's
`round` and fixed-point string formatting. -/
def roundHalfEven (q : ℚ) : ℤ :=
  let f := ⌊q⌋
  let r := q - (f : ℚ)
  if r < 1 / 2 then f
  else if r > 1 / 2 then f + 1
  else if f % 2 = 0 then f else f + 1

/-- Python's fixed-point float formatting `f"{q:.prec f}"` on the exactly
representable decimals handled here. -/
def formatFixed (q : ℚ) (prec : Nat) : String :=
  let scaled := roundHalfEven (q * (10 : ℚ) ^ prec)
  let sign := if scaled < 0 then "-" else ""
  let ds := toString scaled.natAbs
  let padded :=
    if ds.length ≤ prec then String.mk (List.replicate (prec + 1 - ds.length) '0') ++ ds
    else ds
  if prec = 0 then sign ++ padded
  else
    sign ++ String.mk (padded.toList.take (padded.length - prec)) ++ "." ++
      String.mk (padded.toList.drop (padded.length - prec))

/-- Python's `str.title()` on the ASCII strings handled here: upper-case every
letter that follows a non-letter, lower-case the rest. -/
def pyTitle (s : String) : String :=
  let step := fun (acc : List Char × Bool) (c : Char) =>
    let (out, prevAlpha) := acc
    if c.isAlpha then
      (out ++ [if prevAlpha then c.toLower else c.toUpper], true)
    else (out ++ [c], false)
  String.mk (s.toList.foldl step ([], false)).1

/-- `ModelNameBuilder.build_model_designation(manufacturer, diameter, power)`:
manufacturer-family-specific designation templates; `none` for unrecognized
manufacturers. -/
def buildModelDesignation (manufacturer : String) (diameter power : ℚ) : Option String :=
  let t := pyTitle manufacturer
  if t = "Vestas" then
    if power < 1000 then
      some (manufacturer ++ " V" ++ formatFixed diameter 0 ++ "-" ++ formatFixed power 0)
    else
      some (manufacturer ++ " V" ++ formatFixed diameter 0 ++ "-" ++
        formatFixed (power / 1000) 1)
  else if t = "Siemens" then
    some (manufacturer ++ " SWT-" ++ formatFixed (power / 1000) 1 ++ "-" ++
      formatFixed diameter 0)
  else if t = "Siemens Gamesa" then
    some (manufacturer ++ " SG-" ++ formatFixed (power / 1000) 1 ++ "-" ++
      formatFixed diameter 0)
  else if t = "Enercon" then
    if power < 500 then
      some (manufacturer ++ " E-" ++ formatFixed diameter 0 ++ " / " ++ formatFixed power 0)
    else if power < 2000 then
      some (manufacturer ++ " E-" ++ formatFixed diameter 0 ++ "/" ++
        formatFixed (power / 100) 0 ++ "." ++ formatFixed diameter 0)
    else
      some (manufacturer ++ " E-" ++ formatFixed diameter 0 ++ " " ++
        formatFixed (power / 1000) 3)
  else if t = "Senvion" || t = "Repower" then
    some (manufacturer ++ " " ++ formatFixed (power / 1000) 1 ++ "M" ++
      formatFixed diameter 0)
  else if t = "Nordex" then
    if diameter < 140 then
      some (manufacturer ++ " N" ++ formatFixed diameter 0 ++ "/" ++ formatFixed power 0)
    else
      some (manufacturer ++ " N" ++ formatFixed diameter 0 ++ "/" ++
        formatFixed (power / 1000) 1)
  else if t = "Bonus" || t = "Dewind" then
    some (manufacturer ++ " " ++ String.mk ((pyUpper manufacturer).toList.take 1) ++
      formatFixed diameter 0 ++ "/" ++ formatFixed power 0)
  else if t = "Ref" then
    some (manufacturer ++ "-" ++ formatFixed (power / 1000) 1)
  else none

/-! ## ProbabilisticMapper.py — md5 and the deterministic fallback mapper -/

/-- UTF-8 encoding of one character (`str.encode()`). -/
def utf8Bytes (c : Char) : List Nat :=
  let n := c.toNat
  if n < 0x80 then [n]
  else if n < 0x800 then [0xC0 + n / 0x40, 0x80 + n % 0x40]
  else if n < 0x10000 then
    [0xE0 + n / 0x1000, 0x80 + n / 0x40 % 0x40, 0x80 + n % 0x40]
  else
    [0xF0 + n / 0x40000, 0x80 + n / 0x1000 % 0x40, 0x80 + n / 0x40 % 0x40, 0x80 + n % 0x40]

/-- UTF-8 encoding of a string as a byte list. -/
def strBytes (s : String) : List Nat :=
  s.toList.flatMap utf8Bytes

/-- The md5 per-round left-rotation amounts. -/
def md5Shifts : List Nat :=
  [7, 12, 17, 22, 7, 12, 17, 22, 7, 12, 17, 22, 7, 12, 17, 22,
   5, 9, 14, 20, 5, 9, 14, 20, 5, 9, 14, 20, 5, 9, 14, 20,
   4, 11, 16, 23, 4, 11, 16, 23, 4, 11, 16, 23, 4, 11, 16, 23,
   6, 10, 15, 21, 6, 10, 15, 21, 6, 10, 15, 21, 6, 10, 15, 21]

/-- The md5 sine-derived round constants. -/
def md5K : List Nat :=
  [0xd76aa478, 0xe8c7b756, 0x242070db, 0xc1bdceee,
   0xf57c0faf, 0x4787c62a, 0xa8304613, 0xfd469501,
   0x698098d8, 0x8b44f7af, 0xffff5bb1, 0x895cd7be,
   0x6b901122, 0xfd987193, 0xa679438e, 0x49b40821,
   0xf61e2562, 0xc040b340, 0x265e5a51, 0xe9b6c7aa,
   0xd62f105d, 0x02441453, 0xd8a1e681, 0xe7d3fbc8,
   0x21e1cde6, 0xc33707d6, 0xf4d50d87, 0x455a14ed,
   0xa9e3e905, 0xfcefa3f8, 0x676f02d9, 0x8d2a4c8a,
   0xfffa3942, 0x8771f681, 0x6d9d6122, 0xfde5380c,
   0xa4beea44, 0x4bdecfa9, 0xf6bb4b60, 0xbebfbc70,
   0x289b7ec6, 0xeaa127fa, 0xd4ef3085, 0x04881d05,
   0xd9d4d039, 0xe6db99e5, 0x1fa27cf8, 0xc4ac5665,
   0xf4292244, 0x432aff97, 0xab9423a7, 0xfc93a039,
   0x655b59c3, 0x8f0ccc92, 0xffeff47d, 0x85845dd1,
   0x6fa87e4f, 0xfe2ce6e0, 0xa3014314, 0x4e0811a1,
   0xf7537e82, 0xbd3af235, 0x2ad7d2bb, 0xeb86d391]

/-- 32-bit truncation. -/
def w32 (n : Nat) : Nat := n % 4294967296

/-- 32-bit bitwise complement. -/
def wnot (n : Nat) : Nat := Nat.xor n 4294967295

/-- 32-bit left rotation. -/
def rotl32 (x c : Nat) : Nat := w32 (x * 2 ^ c + x / 2 ^ (32 - c))

/-- md5 message padding (RFC 1321): a 1-bit, zeros to 56 mod 64, then the
64-bit little-endian bit length. -/
def md5Pad (msg : List Nat) : List Nat :=
  let len := msg.length
  let zeros := (55 + 64 - len % 64) % 64
  let bitLen := 8 * len
  msg ++ [0x80] ++ List.replicate zeros 0 ++
    (List.range 8).map (fun i => bitLen / 256 ^ i % 256)

/-- The 16 little-endian 32-bit words of one 64-byte block. -/
def md5Words (block : List Nat) : List Nat :=
  (List.range 16).map (fun i =>
    block.getD (4 * i) 0 + 256 * block.getD (4 * i + 1) 0 +
    65536 * block.getD (4 * i + 2) 0 + 16777216 * block.getD (4 * i + 3) 0)

/-- One md5 round step: mixes round `i` into the state `(a, b, c, d)` given the
block words `ws`. -/
def md5Step (ws : List Nat) (st : Nat × Nat × Nat × Nat) (i : Nat) :
    Nat × Nat × Nat × Nat :=
  let (a, b, c, d) := st
  let (f, g) :=
    if i < 16 then (Nat.lor (Nat.land b c) (Nat.land (wnot b) d), i)
    else if i < 32 then (Nat.lor (Nat.land d b) (Nat.land (wnot d) c), (5 * i + 1) % 16)
    else if i < 48 then (Nat.xor b (Nat.xor c d), (3 * i + 5) % 16)
    else (Nat.xor c (Nat.lor b (wnot d)), (7 * i) % 16)
  let f' := w32 (f + a + md5K.getD i 0 + ws.getD g 0)
  (d, w32 (b + rotl32 f' (md5Shifts.getD i 0)), b, c)

/-- Process one 64-byte block into the md5 state. -/
def md5Block (st : Nat × Nat × Nat × Nat) (block : List Nat) : Nat × Nat × Nat × Nat :=
  let (a0, b0, c0, d0) := st
  let ws := md5Words block
  let (a, b, c, d) := (List.range 64).foldl (md5Step ws) (a0, b0, c0, d0)
  (w32 (a0 + a), w32 (b0 + b), w32 (c0 + c), w32 (d0 + d))

/-- Split a list into the consecutive 64-byte blocks of a padded md5 message
(whose length is a multiple of 64). -/
def chunks64 (l : List Nat) : List (List Nat) :=
  (List.range (l.length / 64)).map (fun i => (l.drop (64 * i)).take 64)

/-- The md5 digest (16 bytes) of a byte list. -/
def md5Digest (msg : List Nat) : List Nat :=
  let blocks := chunks64 (md5Pad msg)
  let (a, b, c, d) := blocks.foldl md5Block (0x67452301, 0xefcdab89, 0x98badcfe, 0x10325476)
  [a, b, c, d].flatMap (fun w => (List.range 4).map (fun i => w / 256 ^ i % 256))

/-- `int(hashlib.md5(s.encode()).hexdigest(), 16)` — the digest read as a
big-endian 128-bit number. -/
def md5Int (s : String) : Nat :=
  (md5Digest (strBytes s)).foldl (fun acc byte => acc * 256 + byte) 0

/-- The fixed catalog of common turbine models of `ProbabilisticMapper._get_common_models`. -/
def commonModels : List String :=
  ["V52", "V80", "V90", "V100", "V112", "V117", "V126", "V136", "V150",
   "E40", "E48", "E70", "E82", "E92", "E101", "E115", "E126", "E138",
   "SWT-107", "SWT-120", "SWT-130", "SWT-154", "SG-114", "SG-132", "SG-145",
   "N90", "N100", "N117", "N131", "N149", "N155",
   "MM82", "MM92", "MM100", "Senvion-3M", "Senvion-5M", "Senvion-6M",
   "GE-1.5", "GE-2.5", "GE-3.8", "GE-4.8",
   "Tacke", "NEG-Micon", "Bonus", "AN-Bonus", "Nordtank"]

/-- Python `round(x, 1)` (round half to even at the first decimal). -/
def round1 (q : ℚ) : ℚ := (roundHalfEven (q * 10) : ℚ) / 10

/-- The f-string rendering of a one-decimal float (`f"{round(x, 1)}"`). -/
def fmtRound1 (q : ℚ) : String := formatFixed q 1

/-- The diameter extractable from a common-model name: trailing digits of a
`V`/`E`/`N` code or the suffix of an `SWT-`/`SG-` code, else 0. -/
def modelDiameter (model : String) : Nat :=
  let cs := model.toList
  let tail1 := cs.drop 1
  if (tail1 ≠ [] ∧ tail1.all Char.isDigit) ∧
      (cs.take 1 = ['V'] ∨ cs.take 1 = ['E'] ∨ cs.take 1 = ['N']) then
    digitsToNat tail1
  else
    let lastPart := (splitOnChar '-' cs).getLastD []
    if (lastPart ≠ [] ∧ lastPart.all Char.isDigit) ∧
        (containsSub model "SWT-" ∨ containsSub model "SG-") then
      digitsToNat lastPart
    else 0

/-- The offshore-area test of `ProbabilisticMapper.map`: box containment plus the
regional refinement condition. -/
def probOffshore (lat lon : ℚ) : Bool :=
  let inArea := fun (lo1 lo2 la1 la2 : ℚ) =>
    lo1 ≤ lon && lon ≤ lo2 && la1 ≤ lat && lat ≤ la2
  let refine := (lon > 3 && lat > 53) || (lon > 12 && lat > 54) || (lon > 0 && lat < 43)
  (inArea (-5) 12 51 60 && refine) || (inArea 10 30 54 66 && refine) ||
    (inArea 0 20 36 45 && refine)

/-- `ProbabilisticMapper.map(turbine_type, lat, lon, diameter)` — the
hash-based deterministic fallback mapper, a pure function of its arguments. -/
def probabilisticMap (turbineType : Option String) (lat lon : ℚ) (diameter : Option ℚ) :
    String :=
  let roundedLat := round1 lat
  let roundedLon := round1 lon
  let hashInput := (turbineType.getD "None") ++ "_" ++ fmtRound1 roundedLat ++ "_" ++
    fmtRound1 roundedLon
  let hashValue := md5Int hashInput
  let baseModel := commonModels.getD (hashValue % commonModels.length) ""
  -- a 4-5 digit type whose leading digits look like a diameter overrides the argument
  let diameter1 : Option ℚ :=
    match turbineType with
    | some t =>
        if t ≠ "" && (t.length = 4 || t.length = 5) then
          match strDigitsToNat? (String.mk (t.toList.take (t.length - 2))) with
          | some firstPart =>
              if 40 ≤ firstPart ∧ firstPart ≤ 150 then some (firstPart : ℚ) else diameter
          | none => diameter
        else diameter
    | none => diameter
  let byDiameter : Option String :=
    match diameter1 with
    | none => none
    | some d =>
        ([0, 1, 3, 5, 15] : List ℚ).findSome? (fun tol =>
          let diameterModels := commonModels.filter (fun model =>
            modelDiameter model > 0 && |(modelDiameter model : ℚ) - d| ≤ tol)
          if diameterModels ≠ [] then
            some (diameterModels.getD (hashValue % diameterModels.length) "")
          else none)
  match byDiameter with
  | some model => model
  | none =>
      -- regional candidate lists
      let isNorthernEurope := lat > 52 && 0 < lon && lon < 20
      let isCentralEurope := 47 < lat && lat < 52 && 5 < lon && lon < 20
      let isWesternEurope := 47 < lat && lat < 52 && -5 < lon && lon < 5
      let isUkIreland := 50 < lat && lat < 60 && -10 < lon && lon < 2
      let isSouthernEurope := 36 < lat && lat < 47 && -10 < lon && lon < 20
      let isOffshore := probOffshore lat lon
      let regionalModels : Option (List String) :=
        if isOffshore then
          let offshoreModels :=
            ["V164", "V174", "SWT-154", "SG-D8", "Senvion-6M", "Siemens-D7"]
          some (offshoreModels ++ offshoreModels ++ offshoreModels ++
            ["V150", "E126", "SWT-130", "N149"])
        else if isNorthernEurope then
          let l := ["V90", "V100", "V112", "V117", "V126", "V136"]
          some (l ++ l ++ ["N131", "N149", "E101", "E115", "E126"])
        else if isCentralEurope then
          let l := ["E82", "E101", "E115", "E126", "E138"]
          some (l ++ l ++ ["V90", "V112", "N131", "SG-132"])
        else if isWesternEurope then
          let l := ["V90", "V100", "V112"]
          some (l ++ l ++ ["GE-1.5", "GE-2.5", "E82", "E101", "MM100"])
        else if isUkIreland then
          let l := ["V80", "V90", "V100", "V112"]
          some (l ++ l ++ ["SWT-107", "SWT-120", "E82", "N90"])
        else if isSouthernEurope then
          some (["V90", "G58", "G80", "GE-1.5", "MM82"] ++ ["SG-114", "V100", "E82"])
        else none
      match regionalModels with
      | none => baseModel
      | some models =>
          if models ≠ [] then models.getD (hashValue % models.length) ""
          else baseModel

/-! ## TurbineTypeManager.py — the reference catalog -/

/-- One row of the loaded turbine-specs table (`specs_df_full`), with the computed
columns (`model_designation`, richness lengths, `is_known_manufacturer`) already
present, as they are after `load_type_specs`. -/
structure Spec where
  type_code : Val
  type_id : Val
  turbine_model : Val
  model_designation : Val
  manufacturer : Val
  diameter : Val
  height : Val
  rated_power : Val
  is_offshore : Val
  radius : Val
  z_height : Val
  is_manufacturer_data : Val
  wind_speeds_length : ℚ
  model_designation_length : ℚ
  is_known_manufacturer : Bool
  deriving DecidableEq, Repr

/-- The manager's post-load state: the full specs table (`specs_df_full`), whose
position in the list is the stable line index; the filtered view is recomputed
from it (as `filter_specs` computes it at load time).  `hasIsManufacturerData`
records whether the optional `is_manufacturer_data` column was loaded. -/
structure Catalog where
  rows : List Spec
  hasIsManufacturerData : Bool
  deriving DecidableEq, Repr

/-- Column access used by the deriver's field lookups. -/
def specField (sp : Spec) (field : String) : Val :=
  if field = "type_code" then sp.type_code
  else if field = "type_id" then sp.type_id
  else if field = "turbine_model" then sp.turbine_model
  else if field = "model_designation" then sp.model_designation
  else if field = "manufacturer" then sp.manufacturer
  else if field = "diameter" then sp.diameter
  else if field = "height" then sp.height
  else if field = "rated_power" then sp.rated_power
  else Val.none_

/-- The columns of the specs table (membership is what `field in specs_df.columns`
tests; `is_manufacturer_data` is present only when loaded). -/
def catalogColumns (cat : Catalog) : List String :=
  ["type_code", "type_id", "turbine_model", "height", "diameter", "rated_power",
   "manufacturer", "is_offshore", "radius", "z_height", "model_designation",
   "is_known_manufacturer", "wind_speeds_length", "model_designation_length"] ++
  (if cat.hasIsManufacturerData then ["is_manufacturer_data"] else [])

/-- Shortest-decimal rendering of a float (Python `str(x)`/`repr(x)`) for the exactly
representable decimals stored in the embedded tables. -/
def floatRepr (q : ℚ) : String :=
  if q.den = 1 then (if q < 0 then "-" else "") ++ toString q.num.natAbs ++ ".0"
  else
    match (List.range 17).findSome? (fun p =>
        if (q * (10 : ℚ) ^ (p + 1)).den = 1 then some (p + 1) else none) with
    | some p => formatFixed q p
    | none => formatFixed q 17

/-- Python `str(v)` on a cell value. -/
def pyStrOfVal : Val → String
  | Val.num q => floatRepr q
  | Val.int n => (if n < 0 then "-" else "") ++ toString n.natAbs
  | Val.str s => s
  | Val.bool b => if b then "True" else "False"
  | Val.none_ => "None"

/-- `.to_dict()` of a full-catalog row, with the pandas column names. -/
def Spec.toDict (sp : Spec) : PyDict :=
  [("type_code", sp.type_code), ("type_id", sp.type_id),
   ("turbine_model", sp.turbine_model), ("height", sp.height),
   ("diameter", sp.diameter), ("rated_power", sp.rated_power),
   ("manufacturer", sp.manufacturer), ("is_offshore", sp.is_offshore),
   ("radius", sp.radius), ("z_height", sp.z_height),
   ("model_designation", sp.model_designation),
   ("is_known_manufacturer", Val.bool sp.is_known_manufacturer),
   ("wind_speeds_length", Val.num sp.wind_speeds_length),
   ("model_designation_length", Val.num sp.model_designation_length),
   ("is_manufacturer_data", sp.is_manufacturer_data)]

/-- `TurbineTypeManager.get_specs_by_line_index`: the full-catalog row at a
non-negative in-range index, else `None`. -/
def getSpecsByLineIndex (cat : Catalog) (lineIndex : Option ℤ) : Option Spec :=
  match lineIndex with
  | none => none
  | some i =>
      if 0 ≤ i ∧ i < (cat.rows.length : ℤ) then cat.rows.get? i.toNat else none

/-- `filter_specs`: the filtered catalog view — rows with a known manufacturer,
nonempty wind-speed data and a nonempty designation — carrying their full-catalog
line indices (the retained pandas index labels). -/
def filterSpecs (cat : Catalog) : List (ℤ × Spec) :=
  (cat.rows.enum.map (fun p => ((p.1 : ℤ), p.2))).filter (fun p =>
    p.2.is_known_manufacturer && p.2.wind_speeds_length > 0 &&
      p.2.model_designation_length > 0)

/-- Numeric view of a cell for the column arithmetic of
`get_specs_by_tower_properties` (the loaded dimension columns are numeric; a
non-numeric cell would make the pandas arithmetic raise). -/
def valFloat (v : Val) : ℚ := (pyFloat? v).getD 0

/-- Minimum of a rational list (`none` on empty). -/
def qMin? (l : List ℚ) : Option ℚ :=
  l.foldl (fun acc x => match acc with | none => some x | some m => some (min m x)) none

/-- Maximum of a rational list (`none` on empty). -/
def qMax? (l : List ℚ) : Option ℚ :=
  l.foldl (fun acc x => match acc with | none => some x | some m => some (max m x)) none

/-- The per-dimension extrapolation guard of `get_specs_by_tower_properties`: a
supplied value outside the filtered catalog's observed `[min, max]` for that
column is discarded (`np.min`/`np.max` of an empty column compare false, so an
empty filtered catalog also discards). -/
def dropIfOutOfRange (v : Option ℚ) (col : List ℚ) : Option ℚ :=
  match v with
  | none => none
  | some x =>
      match qMin? col, qMax? col with
      | some lo, some hi => if lo ≤ x ∧ x ≤ hi then some x else none
      | _, _ => none

/-- Index (into the list) and value of the first minimal entry, mirroring pandas
`Series.idxmin` (first occurrence of the minimum wins). -/
def firstMinLabel (pairs : List (ℤ × ℚ)) : Option ℤ :=
  match pairs with
  | [] => none
  | (l0, v0) :: rest =>
      some (rest.foldl (fun acc p => if p.2 < acc.2 then p else acc) (l0, v0)).1

/-- The tiny symmetry-breaking weight `1e-6` of the dimension lookup. -/
def tinyWeight : ℚ := 1 / 1000000

/-- `TurbineTypeManager.get_specs_by_tower_properties(diameter, height, power,
is_offshore)`: per-dimension extrapolation guard, min-max-normalized absolute
differences, fixed weights (tiny symmetry-breaking weights for unsupplied
dimensions), row-mean score, first minimal row wins; `(None, None)` when no
dimension survives. -/
def getSpecsByTowerProperties (cat : Catalog) (diameter height power : Option ℚ)
    (isOffshore : Val) : Option Spec × Option ℤ :=
  let filtered := filterSpecs cat
  let diameterCol := filtered.map (fun p => valFloat p.2.diameter)
  let heightCol := filtered.map (fun p => valFloat p.2.height)
  let powerCol := filtered.map (fun p => valFloat p.2.rated_power)
  let diameter := dropIfOutOfRange diameter diameterCol
  let height := dropIfOutOfRange height heightCol
  let power := dropIfOutOfRange power powerCol
  if diameter = none ∧ height = none ∧ power = none then (none, none)
  else
    let dScores := diameterCol.map (fun c =>
      if optTruthy diameter then |c - diameter.getD 0| else |c|)
    let hScores : Option (List ℚ) :=
      if optTruthy height then some (heightCol.map (fun c => |c - height.getD 0|)) else none
    let pScores := powerCol.map (fun c =>
      if optTruthy power then |c - power.getD 0| else |c|)
    let normalize := fun (col : List ℚ) =>
      match qMax? col with
      | some m => if m > 0 then col.map (fun x => x / m) else col
      | none => col
    let dN := (normalize dScores).map (fun x =>
      if optTruthy diameter then x * 3 else x * tinyWeight)
    let hN := (hScores.map normalize).map (fun col => col.map (fun x => x * (3 / 2)))
    let pN := (normalize pScores).map (fun x =>
      if optTruthy power then x * 2
      else x * tinyWeight * (if Val.truthy isOffshore then -1 else 1))
    let count : ℚ := 2 + (if hN.isSome then 1 else 0)
    let totals := (List.range filtered.length).map (fun i =>
      (dN.getD i 0 + (hN.getD []).getD i 0 + pN.getD i 0) / count)
    match firstMinLabel (List.zip (filtered.map Prod.fst) totals) with
    | some label => (getSpecsByLineIndex cat (some label), some label)
    | none => (none, none)

/-! ## ModelDesignationDeriver.py -/

/-- The full catalog with its line indices (the unfiltered view used when
`filtered=False`). -/
def allRowsIdx (cat : Catalog) : List (ℤ × Spec) :=
  cat.rows.enum.map (fun p => ((p.1 : ℤ), p.2))

/-- Stable insertion of `x` into a list sorted descending by `key` (ties keep
earlier elements first, i.e. catalog load order). -/
def insertDescBy (key : α → ℚ) (x : α) : List α → List α
  | [] => [x]
  | y :: ys => if key y ≥ key x then y :: insertDescBy key x ys else x :: y :: ys

/-- Stable descending sort by a rational key. -/
def stableSortByDesc (key : α → ℚ) (l : List α) : List α :=
  l.foldl (fun acc x => insertDescBy key x acc) []

/-- Stable insertion into a list sorted ascending by `key`. -/
def insertAscBy (key : α → ℚ) (x : α) : List α → List α
  | [] => [x]
  | y :: ys => if key y ≤ key x then y :: insertAscBy key x ys else x :: y :: ys

/-- Stable ascending sort by a rational key. -/
def stableSortByAsc (key : α → ℚ) (l : List α) : List α :=
  l.foldl (fun acc x => insertAscBy key x acc) []

/-- Ascending string sort (the order `pandas.Series.mode` returns its values in). -/
def sortStringsAsc (l : List String) : List String :=
  l.foldl (fun acc x =>
    let rec ins (s : String) : List String → List String
      | [] => [s]
      | y :: ys => if (compare y s).isLE then y :: ins s ys else s :: y :: ys
    ins x acc) []

/-- The sort key of a cell under `x.str.len()`: string length, with non-strings
(`NaN` under the `.str` accessor, which pandas sorts last) mapped below every
real length. -/
def strLenKey : Val → ℚ
  | Val.str s => (s.length : ℚ)
  | _ => -1

/-- `turbine_specs["is_manufacturer_data"] == True` on one cell (Python numeric
equality makes `1`/`1.0` equal to `True`). -/
def valEqTrue : Val → Bool
  | Val.bool b => b
  | Val.num q => q = 1
  | Val.int n => n = 1
  | _ => false

/-- The `FO_\d+` placeholder-family test of the enrichment filter
(`.str.match(r"FO_\d+", na=False)`: case-sensitive, anchored at the start,
false for non-string cells). -/
def foMatch : Val → Bool
  | Val.str s => (reMatchAt false false (rcat [rs "FO_", rplus rdigit]) s.toList 0).isSome
  | _ => false

/-- The parser result as the dict that `enrich_model_designation` hands to the
numeric getters (`manufacturer_pattern` holds a regex object which those getters
never read, so it is omitted from the dict view). -/
def ParseResult.toDict (r : ParseResult) : PyDict :=
  [("model_name", Val.str r.model_name),
   ("model_designation", (r.model_designation.map Val.str).getD Val.none_),
   ("manufacturer", (r.manufacturer.map Val.str).getD Val.none_),
   ("diameter", (r.diameter.map Val.num).getD Val.none_),
   ("power", r.power.getD Val.none_),
   ("is_known_manufacturer", Val.bool r.is_known_manufacturer)]

/-- The progressive power-tolerance halving loop of the enrichment filter
(`while len(...) > 1 and int(thresshold*100) > 0`).  The fuel bounds the loop;
the threshold halves at least once per iteration, so 128 iterations cover every
value arising here. -/
def powerHalvingLoop : Nat → List (ℤ × Spec) → ℚ → ℚ → List (ℤ × Spec)
  | 0, rows, _, _ => rows
  | fuel + 1, rows, pw, t =>
      if rows.length > 1 ∧ (⌊t * 100⌋ : ℤ) > 0 then
        let t' := t / 2
        let prep := rows.filter (fun p =>
          match pyFloat? p.2.rated_power with
          | some c => |c - pw| / pw < t'
          | none => false)
        if prep ≠ [] then powerHalvingLoop fuel prep pw (t' / 2)
        else rows
      else rows

/-- The most-frequent-designation pick of the enrichment resolution
(`Series.mode().iloc[0]`): drop `None` cells, keep the values of maximal
multiplicity, return the smallest in ascending order (pandas sorts the modes;
the designation cells reaching this point are strings). -/
def modeDesignation (vals : List Val) : Option Val :=
  let present := vals.filter (fun v => v ≠ Val.none_)
  let counts := present.map (fun v => (v, present.count v))
  match qMax? (counts.map (fun p => (p.2 : ℚ))) with
  | none => none
  | some m =>
      let top := (counts.filter (fun p => (p.2 : ℚ) = m)).map Prod.fst
      let topStrs := top.filterMap (fun v => match v with | Val.str s => some s | _ => none)
      let topStrsDedup := topStrs.foldl (fun acc x =>
        if acc.contains x then acc else acc ++ [x]) []
      match sortStringsAsc topStrsDedup with
      | s :: _ => some (Val.str s)
      | [] => top.head?

/-- `ModelDesignationDeriver.enrich_model_designation(model_designation,
additional_data, exact_power_match, filtered)`.  Returns the (possibly unchanged)
designation and the row-data-used flag; `none` models an exception escaping the
method (a non-convertible `rated_power` cell under `float()`). -/
def enrichModelDesignation (cat : Catalog) (modelDesignation : Val)
    (additionalData : PyDict) (exactPowerMatch : Bool) (filtered : Bool) :
    Option (Val × Bool) :=
  let data := parseModelName (pyStrOfVal modelDesignation)
  let manufacturer := data.manufacturer
  let diameter0 := getDiameterD data.toDict none
  let power0 := getRatedPowerKwD data.toDict none
  let (power, rdUsedP) : Option ℚ × Bool :=
    if !optTruthy power0 then
      let p := getRatedPowerKwD additionalData none
      (p, p.isSome)
    else (power0, false)
  let (diameter, rdUsedD) : Option ℚ × Bool :=
    if !optTruthy diameter0 then
      let d := getDiameterD additionalData none
      (d, d.isSome)
    else (diameter0, false)
  let rdUsed := rdUsedP || rdUsedD
  let pattern := data.manufacturerPattern
  if !optStrTruthy manufacturer && !optTruthy diameter && !optTruthy power then
    some (modelDesignation, rdUsed)
  else
    let rows0 := if filtered then filterSpecs cat else allRowsIdx cat
    -- remove the FO_nnnnn placeholder family
    let rows1 := rows0.filter (fun p => !foMatch p.2.model_designation)
    -- manufacturer (pattern or exact) filter
    let rows2 :=
      match pattern with
      | some pre =>
          rows1.filter (fun p =>
            match p.2.manufacturer with
            | Val.str s => (reMatchAt true false pre s.toList 0).isSome
            | _ => false)
      | none =>
          if optStrTruthy manufacturer then
            rows1.filter (fun p =>
              match p.2.manufacturer with
              | Val.str s => pyLower s = pyLower (pyStrOfVal (Val.str (manufacturer.getD "")))
              | _ => false)
          else rows1
    -- diameter within ±5
    let rows3 :=
      if optTruthy diameter then
        rows2.filter (fun p =>
          match pyFloat? p.2.diameter with
          | some c => |c - diameter.getD 0| < 5
          | none => false)
      else rows2
    -- power within the proportional tolerance band, when an exact match is requested
    let pw := power.getD 0
    let rows4 :=
      if optTruthy power ∧ pw > 0 ∧ exactPowerMatch then
        rows3.filter (fun p =>
          match pyFloat? p.2.rated_power with
          | some c => |c - pw| / pw < pw / 750 / 100
          | none => false)
      else rows3
    -- prefer rows with positive rated power
    let rows5 :=
      if rows4.length > 1 then
        let pos := rows4.filter (fun p =>
          match pyFloat? p.2.rated_power with
          | some c => c > 0
          | none => false)
        if pos ≠ [] then pos else rows4
      else rows4
    -- prefer rows with wind-speed data
    let rows6 :=
      if rows5.length > 1 then
        let ws := rows5.filter (fun p => p.2.wind_speeds_length > 0)
        if ws ≠ [] then ws else rows5
      else rows5
    -- tighten the diameter tolerance to ±3 then ±1 while candidates remain
    let rows7 :=
      if rows6.length > 1 ∧ optTruthy diameter then
        let d := diameter.getD 0
        let within := fun (t : ℚ) (p : ℤ × Spec) =>
          match pyFloat? p.2.diameter with
          | some c => |c - d| < t
          | none => false
        let r3 := let prep := rows6.filter (within 3); if prep ≠ [] then prep else rows6
        let prep := r3.filter (within 1); if prep ≠ [] then prep else r3
      else rows6
    -- progressively halve the power tolerance
    let rows8 :=
      if rows7.length > 1 ∧ optTruthy power ∧ pw > 0 ∧ exactPowerMatch then
        powerHalvingLoop 128 rows7 pw (pw / 750 / 100)
      else rows7
    -- resolution of the remaining candidate set
    if rows8.length > 0 ∧ optTruthy power ∧ !exactPowerMatch then
      -- smallest absolute power delta wins (float() of a None cell raises)
      if rows8.any (fun p => (pyFloat? p.2.rated_power).isNone) then none
      else
        let sorted := stableSortByAsc
          (fun (p : ℤ × Spec) => |valFloat p.2.rated_power - pw|) rows8
        match sorted with
        | p :: _ => some (p.2.model_designation, rdUsed)
        | [] => some (modelDesignation, rdUsed)
    else if rows8.length = 1 then
      match rows8 with
      | p :: _ => some (p.2.model_designation, rdUsed)
      | [] => some (modelDesignation, rdUsed)
    else if rows8.length > 1 then
      match modeDesignation (rows8.map (fun p => p.2.model_designation)) with
      | some v => some (v, rdUsed)
      | none => some (modelDesignation, rdUsed)
    else some (modelDesignation, rdUsed)

/-- A pending cross-reference created when a field lookup hits only rows without a
usable designation. -/
structure DerivLink where
  field : String
  result : List (ℤ × Spec)

/-- Outcome of the field-scan phase of `by_turbine_type`: either an early return
(whose `none` models an exception) or the collected links. -/
inductive FieldScan where
  | done (r : Option (Val × Option ℤ × Bool))
  | links (ls : List DerivLink)

/-- The rows of the chosen catalog view whose `field` column equals the probe
string case-insensitively (`astype(str).str.lower() == str(v).lower()`). -/
def rowsMatchingField (rows : List (ℤ × Spec)) (field : String) (probe : String) :
    List (ℤ × Spec) :=
  rows.filter (fun p => pyLower (pyStrOfVal (specField p.2 field)) = pyLower probe)

/-- The per-field loop of `by_turbine_type` (`for field in fields:`), carrying the
accumulated links.  `recur` is the recursive entry point with the already
decremented fuel. -/
def byTTFields (cat : Catalog)
    (recur : Val → List String → Option String → PyDict → Bool → Option (Val × Option ℤ × Bool))
    (rows : List (ℤ × Spec)) (turbineType : Val) (sortField : String)
    (rowData : PyDict) (filtered : Bool) :
    List String → List DerivLink → FieldScan
  | [], links => FieldScan.links links
  | field :: restFields, links =>
      if !(catalogColumns cat).contains field then
        byTTFields cat recur rows turbineType sortField rowData filtered restFields links
      else
        let ts0 := rowsMatchingField rows field (pyStrOfVal turbineType)
        let ts1 :=
          if ts0 = [] ∧ field = "model_designation" then
            rowsMatchingField rows field (ensureManufacturerPfx (pyStrOfVal turbineType))
          else ts0
        if ts1 = [] then
          byTTFields cat recur rows turbineType sortField rowData filtered restFields links
        else
          -- remove results with empty model_designation (`!= ""` keeps None cells)
          let tsf := ts1.filter (fun p => p.2.model_designation ≠ Val.str "")
          if tsf = [] then
            -- no usable designation: remember the hits as a link
            byTTFields cat recur rows turbineType sortField rowData filtered restFields
              (links ++ [⟨field, ts1⟩])
          else
            -- prefer manufacturer-supplied-curve rows when the column exists
            let ts2 :=
              if (catalogColumns cat).contains "is_manufacturer_data" then
                let tsm := tsf.filter (fun p => valEqTrue p.2.is_manufacturer_data)
                if tsm ≠ [] then tsm else tsf
              else tsf
            -- sort by the richness proxy, descending, load order on ties
            let sorted :=
              if sortField = "model_designation" then
                stableSortByDesc (fun (p : ℤ × Spec) => p.2.model_designation_length) ts2
              else if sortField = "wind_speeds" then
                stableSortByDesc (fun (p : ℤ × Spec) => p.2.wind_speeds_length) ts2
              else
                stableSortByDesc (fun (p : ℤ × Spec) => strLenKey (specField p.2 sortField)) ts2
            match sorted with
            | [] => FieldScan.done (some (Val.none_, none, false))
            | (topIdx, topSp) :: _ =>
                let md := topSp.model_designation
                -- enrichment trigger: missing/zero rated power or no wind-speed data
                -- (`float()` of a non-convertible cell raises)
                let needsEnrich : Option Bool :=
                  if topSp.rated_power = Val.none_ then some true
                  else
                    match pyFloat? topSp.rated_power with
                    | some q => some (q = 0 || topSp.wind_speeds_length = 0)
                    | none => none
                match needsEnrich with
                | none => FieldScan.done none
                | some needs =>
                    let step : Option (Val × Bool × Bool) :=
                      if needs then
                        match enrichModelDesignation cat md rowData true filtered with
                        | none => none
                        | some (rich, used) =>
                            if rich ≠ md then some (rich, true, used)
                            else some (md, false, false)
                      else some (md, false, false)
                    match step with
                    | none => FieldScan.done none
                    | some (md2, isEnriched, rdUsed) =>
                        if !(pyLower field = "model_designation" ∧
                              pyLower sortField = "wind_speeds") || isEnriched then
                          -- land on the richest wind-speeds variant of the designation
                          FieldScan.done
                            (recur md2 ["model_designation"] (some "wind_speeds") [] filtered)
                        else
                          FieldScan.done (some (md2, some topIdx, rdUsed))

/-- The link-following phase: the source unpacks the 3-tuple returned by the
recursive call into two names, so the first link hop with a truthy cross-field
value raises `ValueError`; with no such value the loop falls through. -/
def linksRaise (fields : List String) (links : List DerivLink) : Bool :=
  links.any (fun link =>
    link.result.any (fun p =>
      fields.any (fun field =>
        field ≠ link.field && (specField p.2 field).truthy)))

/-- One unfolding of `ModelDesignationDeriver.by_turbine_type`, with the
recursive entry point passed as `recur`. -/
def byTurbineTypeStep (cat : Catalog)
    (recur : Val → List String → Option String → PyDict → Bool →
      Option (Val × Option ℤ × Bool))
    (turbineType : Val) (fields : List String) (sortField0 : Option String)
    (rowData : PyDict) (filtered : Bool) : Option (Val × Option ℤ × Bool) :=
  let sortField :=
    match sortField0 with
    | some s =>
        if s = "" then
          if fields ≠ ["model_designation"] then "model_designation" else "wind_speeds"
        else s
    | none =>
        if fields ≠ ["model_designation"] then "model_designation" else "wind_speeds"
  let rows := if filtered then filterSpecs cat else allRowsIdx cat
  match byTTFields cat recur rows turbineType sortField rowData filtered fields [] with
  | FieldScan.done r => r
  | FieldScan.links links =>
      if linksRaise fields links then none
      else
        -- model_designation is still None: enrich the probe itself, first with an
        -- exact power match, then without
        match enrichModelDesignation cat turbineType rowData true filtered with
        | none => none
        | some (md1, used1) =>
            let next : Option (Val × Bool) :=
              if md1 = turbineType then
                match enrichModelDesignation cat turbineType rowData false filtered with
                | none => none
                | some (md2, _) => some (md2, true)
              else some (md1, used1)
            match next with
            | none => none
            | some (md2, used2) =>
                let md3 := if md2 = turbineType then Val.none_ else md2
                if md3.truthy then
                  match recur md3 ["model_designation"] (some "wind_speeds") [] filtered with
                  | none => none
                  | some (a, b, _) => some (a, b, used2)
                else some (Val.none_, none, used2)

/-- `ModelDesignationDeriver.by_turbine_type(turbine_type, fields, sort_field,
row_data, filtered)`.  The fuel bounds the recursion depth (Python's recursion
limit); `none` models an exception escaping the method. -/
def byTurbineType (cat : Catalog) :
    Nat → Val → List String → Option String → PyDict → Bool →
    Option (Val × Option ℤ × Bool)
  | 0, _, _, _, _, _ => none
  | fuel + 1, turbineType, fields, sortField0, rowData, filtered =>
      byTurbineTypeStep cat (byTurbineType cat fuel) turbineType fields sortField0
        rowData filtered

/-- The default candidate-field list of `by_turbine_type`. -/
def derivDefaultFields : List String :=
  ["type_id", "type_code", "turbine_model", "model_designation"]

/-! ## DimensionLocationMapper.py -/

/-- The diameter-band candidate builder
(`DimensionLocationMapper.build_dimension_matches`): `(model, confidence, reason)`
tuples with base confidence 10. -/
def buildDimensionMatches (diameter : ℚ) : List (String × ℚ × String) :=
  let vestas : List (String × ℚ × String) :=
    if 88 ≤ diameter ∧ diameter ≤ 92 then [("V90", 10, "90m diameter (V90)")]
    else if 98 ≤ diameter ∧ diameter ≤ 102 then [("V100", 10, "100m diameter (V100)")]
    else if 110 ≤ diameter ∧ diameter ≤ 114 then [("V112", 10, "112m diameter (V112)")]
    else if 116 ≤ diameter ∧ diameter ≤ 120 then [("V117", 10, "117-120m diameter (V117)")]
    else if 124 ≤ diameter ∧ diameter ≤ 128 then [("V126", 10, "126m diameter (V126)")]
    else if 160 ≤ diameter ∧ diameter ≤ 168 then [("V164", 10, "164m diameter (V164)")]
    else []
  let enercon : List (String × ℚ × String) :=
    if 81 ≤ diameter ∧ diameter ≤ 83 then [("E82", 10, "82m diameter (E82)")]
    else if 99 ≤ diameter ∧ diameter ≤ 103 then [("E101", 10, "101m diameter (E101)")]
    else if 114 ≤ diameter ∧ diameter ≤ 118 then [("E115", 10, "115m diameter (E115)")]
    else if 125 ≤ diameter ∧ diameter ≤ 130 then [("E126", 10, "126-130m diameter (E126)")]
    else if 135 ≤ diameter ∧ diameter ≤ 142 then [("E138", 10, "138m diameter (E138)")]
    else []
  let siemens : List (String × ℚ × String) :=
    if 106 ≤ diameter ∧ diameter ≤ 110 then [("SWT-107", 10, "107m diameter (SWT-3.6-107)")]
    else if 119 ≤ diameter ∧ diameter ≤ 123 then [("SWT-120", 10, "120m diameter (SWT-3.6-120)")]
    else if 153 ≤ diameter ∧ diameter ≤ 157 then [("SWT-154", 10, "154m diameter (SWT-6.0-154)")]
    else []
  let nordex : List (String × ℚ × String) :=
    if 130 ≤ diameter ∧ diameter ≤ 134 then [("N131", 10, "131m diameter (N131)")]
    else []
  vestas ++ enercon ++ siemens ++ nordex

/-- Expected hub heights per model (`DimensionLocationMapper.map`). -/
def expectedHeights : List (String × ℚ) :=
  [("V90", 80), ("V100", 95), ("V112", 94), ("V117", 91 + 1/2), ("V126", 116 + 1/2),
   ("V164", 106), ("E82", 78), ("E101", 99), ("E115", 122), ("E126", 135), ("E138", 131),
   ("SWT-107", 90), ("SWT-120", 90), ("SWT-154", 110), ("N131", 114)]

/-- Expected rated powers in MW per model (`DimensionLocationMapper.map`). -/
def expectedPowers : List (String × ℚ) :=
  [("V90", 3), ("V100", 26/10), ("V112", 345/100), ("V117", 42/10), ("V126", 345/100),
   ("V164", 8), ("E82", 2), ("E101", 305/100), ("E115", 32/10), ("E126", 42/10),
   ("E138", 42/10), ("SWT-107", 36/10), ("SWT-120", 36/10), ("SWT-154", 6), ("N131", 36/10)]

/-- `DimensionLocationMapper.confidence_height`: `none` when the height difference
falls in the dead band `[15, 30]` (no adjustment). -/
def confidenceHeight (height expected : ℚ) (model : String) (confidence : ℚ)
    (reason : String) : Option (String × ℚ × String) :=
  let diff := |height - expected|
  if diff < 5 then
    some (model, confidence + 5,
      reason ++ ", height match (" ++ floatRepr height ++ "m vs " ++ floatRepr expected ++ "m)")
  else if diff < 15 then
    some (model, confidence + 2,
      reason ++ ", close height (" ++ floatRepr height ++ "m vs " ++ floatRepr expected ++ "m)")
  else if diff > 30 then
    some (model, confidence - 3,
      reason ++ ", height mismatch (" ++ floatRepr height ++ "m vs " ++ floatRepr expected ++ "m)")
  else none

/-- `DimensionLocationMapper.confidence_power` (the same three-tier rule on MW). -/
def confidencePower (powerMW expected : ℚ) (model : String) (confidence : ℚ)
    (reason : String) : Option (String × ℚ × String) :=
  let diff := |powerMW - expected|
  if diff < 3/10 then
    some (model, confidence + 5,
      reason ++ ", power match (" ++ floatRepr powerMW ++ "MW vs " ++ floatRepr expected ++ "MW)")
  else if diff < 8/10 then
    some (model, confidence + 2,
      reason ++ ", close power (" ++ floatRepr powerMW ++ "MW vs " ++ floatRepr expected ++ "MW)")
  else if diff > 2 then
    some (model, confidence - 3,
      reason ++ ", power mismatch (" ++ floatRepr powerMW ++ "MW vs " ++ floatRepr expected ++ "MW)")
  else none

/-- `DimensionLocationMapper.map(turbine_props)`: dimension bands plus
height/power/offshore/country confidence adjustments; the best candidate wins if
its confidence reaches 8, else no guess.  `none` models an exception (a truthy
non-string country under `.upper()`); the year extraction of the source is dead
code (its value is never used) and is omitted.  The inner option is the guess. -/
def dimensionLocationMap (turbineProps : PyDict) : Option (Option String) :=
  let isOffshore := dictGetV turbineProps "is_offshore"
  let diameter := (getDiameterD turbineProps (some 0)).getD 0
  let height := (getHeightD turbineProps (some 0)).getD 0
  let power := (getRatedPowerKwD turbineProps (some 0)).getD 0
  let countryV : Val :=
    match (["country", "country_code"].find? (fun k => validCell (dictGetV turbineProps k))) with
    | some k => dictGetV turbineProps k
    | none => Val.none_
  let dm0 := buildDimensionMatches diameter
  let dm1 :=
    if height > 0 then
      dm0.map (fun t =>
        match expectedHeights.lookup t.1 with
        | some exp =>
            match confidenceHeight height exp t.1 t.2.1 t.2.2 with
            | some t' => t'
            | none => t
        | none => t)
    else dm0
  let dm2 :=
    if power > 0 then
      dm1.map (fun t =>
        match expectedPowers.lookup t.1 with
        | some exp =>
            match confidencePower (power / 1000) exp t.1 t.2.1 t.2.2 with
            | some t' => t'
            | none => t
        | none => t)
    else dm1
  let dm3 :=
    if isOffshore.truthy then
      dm2.map (fun t =>
        if t.1 = "V164" ∨ t.1 = "SWT-154" then
          (t.1, t.2.1 + 5, t.2.2 ++ ", offshore location match")
        else if t.1 = "E101" ∨ t.1 = "E82" then
          (t.1, t.2.1 - 2, t.2.2 ++ ", uncommon offshore")
        else t)
    else
      dm2.map (fun t =>
        if t.1 = "V164" ∨ t.1 = "SWT-154" then
          (t.1, t.2.1 - 3, t.2.2 ++ ", uncommon onshore")
        else t)
  let withCountry : Option (List (String × ℚ × String)) :=
    if countryV.truthy then
      match countryV with
      | Val.str c =>
          let cu := pyUpper c
          some (dm3.map (fun t =>
            if (cu = "DE" ∨ cu = "DEU" ∨ cu = "GERMANY") ∧ startsWithStr t.1 "E" then
              (t.1, t.2.1 + 2, t.2.2 ++ ", common in " ++ cu)
            else if (cu = "DK" ∨ cu = "DNK" ∨ cu = "DENMARK") ∧ startsWithStr t.1 "V" then
              (t.1, t.2.1 + 2, t.2.2 ++ ", common in " ++ cu)
            else t))
      | _ => none
    else some dm3
  match withCountry with
  | none => none
  | some dm4 =>
      match stableSortByDesc (fun (t : String × ℚ × String) => t.2.1) dm4 with
      | [] => some none
      | (best, conf, _) :: _ => some (if conf ≥ 8 then some best else none)

/-! ## TurbineMatcher.py — cache, plausibility check, cascade -/

/-- Python `s.strip("?")`: remove all leading and trailing question marks. -/
def stripQuestionMarks (s : String) : String :=
  String.mk (((s.toList.dropWhile (fun c => c = '?')).reverse.dropWhile
    (fun c => c = '?')).reverse)

/-- The run-scoped match cache: raw type keys (arbitrary Python objects, hence
`Val`) to `(model designation, line index)`.  Python dict semantics: first
binding of a key wins on lookup. -/
abbrev Cache : Type := List (Val × (Val × Option ℤ))

/-- Cache lookup (`self.match_cache[key]` / `key in self.match_cache`). -/
def cacheLookup (cache : Cache) (key : Val) : Option (Val × Option ℤ) :=
  match cache with
  | [] => none
  | (k, v) :: rest => if k = key then some v else cacheLookup rest key

/-- `TurbineMatcher.add_to_cache`: insert each key only when absent — the first
writer wins and no entry is ever overwritten. -/
def addToCache (cache : Cache) (turbineTypes : List Val) (modelDesignation : Val)
    (matchedLineIndex : Option ℤ) : Cache :=
  turbineTypes.foldl (fun c item =>
    if (cacheLookup c item).isSome then c
    else c ++ [(item, (modelDesignation, matchedLineIndex))]) cache

/-- `TurbineMatcher.tower_implements_turbine_type`: look the candidate up by line
index (`.to_dict()` of a failed lookup raises, hence `none`), coalesce radius and
height from `[tower, candidate]` in that priority order, and accept iff
`radius < height`. -/
def towerImplementsTurbineType (cat : Catalog) (towerProperties : PyDict)
    (matchedLineIndex : Option ℤ) : Option Bool :=
  match getSpecsByLineIndex cat matchedLineIndex with
  | none => none
  | some sp =>
      let sources := [towerProperties, sp.toDict]
      let radius := (getRadiusL sources (some 0)).getD 0
      let height := (getHeightL sources (some 0)).getD 0
      some (decide (radius < height))

/-- `TurbineMatcher.tower_implements_cached_type` (the key is guarded to be
present by every caller). -/
def towerImplementsCachedType (cat : Catalog) (cache : Cache) (towerProperties : PyDict)
    (cachedTurbineType : Val) : Option Bool :=
  match cacheLookup cache cachedTurbineType with
  | some (_, idx) => towerImplementsTurbineType cat towerProperties idx
  | none => none

/-- `TurbineMatcher._turbine_type_to_model_designation`: cached pair if present,
else a deriver lookup over all four candidate fields; `(None, None)` when the
deriver finds nothing.  `none` models an exception. -/
def turbineTypeToModelDesignation (cat : Catalog) (fuel : Nat) (cache : Cache)
    (turbineType : Val) : Option (Val × Option ℤ) :=
  match cacheLookup cache turbineType with
  | some (md, idx) => some (md, idx)
  | none =>
      match byTurbineType cat fuel turbineType
          ["model_designation", "type_id", "type_code", "turbine_model"] none [] false with
      | none => none
      | some (md, idx, _) =>
          if md.truthy then some (md, idx) else some (Val.none_, none)

/-- The matcher configuration read from the run's config file. -/
structure MatcherConfig where
  forbidden_types : List String
  use_probabilistic_mapper : Bool
  use_default_selector : Bool

/-- A resolved `(model designation, line index, strategy tag)` triple together
with the cache state after the call. -/
abbrev MatchOutcome : Type := (Val × Option ℤ × String) × Cache

/-- Options 3/4/3b/4b of the cascade: a deriver lookup on `probe` validated by
the plausibility check; on acceptance the given keys are cached.  The outer
option models an exception, the inner one "stage did not accept". -/
def deriverStage (cat : Catalog) (fuel : Nat) (cache : Cache) (turbine : PyDict)
    (probe : Val) (keys : List Val) (tag : String) : Option (Option MatchOutcome) :=
  match byTurbineType cat fuel probe derivDefaultFields none turbine false with
  | none => none
  | some (md, idx, _) =>
      if md.truthy then
        match towerImplementsTurbineType cat turbine idx with
        | none => none
        | some true => some (some ((md, idx, tag), addToCache cache keys md idx))
        | some false => some none
      else some none

/-- A cache-consulting fallback stage (Options 5/7/8): resolve the guess via
`_turbine_type_to_model_designation` and cache it on success. -/
def guessStage (cat : Catalog) (fuel : Nat) (cache : Cache) (guess : Val)
    (tag : String) : Option (Option MatchOutcome) :=
  match turbineTypeToModelDesignation cat fuel cache guess with
  | none => none
  | some (md, idx) =>
      if md.truthy then some (some ((md, idx, tag), addToCache cache [guess] md idx))
      else some none

/-- A latitude/longitude cell under `round(x, 1)` (numeric values round,
everything else raises). -/
def valNumeric? : Val → Option ℚ
  | Val.num q => some q
  | Val.int n => some (n : ℚ)
  | Val.bool b => some (if b then 1 else 0)
  | _ => none

/-- Options 1/2 of the cascade: a plausibility-validated cache hit on the given
key (when one is present at all).  `Sum.inl` is an accepted match (with the
cache unchanged), `Sum.inr` the key to carry into the later stages (`none` when
the key was missing or the cached candidate failed the plausibility check). -/
def cacheHitStage (cat : Catalog) (cache : Cache) (turbine : PyDict)
    (key? : Option String) (tag : String) : Option (MatchOutcome ⊕ Option String) :=
  match key? with
  | some t =>
      if (cacheLookup cache (Val.str t)).isSome then
        match towerImplementsCachedType cat cache turbine (Val.str t) with
        | none => none
        | some true =>
            match cacheLookup cache (Val.str t) with
            | some (md, idx) => some (Sum.inl ((md, idx, tag), cache))
            | none => none
        | some false => some (Sum.inr none)
      else some (Sum.inr (some t))
  | none => some (Sum.inr none)

/-- Options 3, 4, 3b, 4b of the cascade: the deriver lookups, gated on a
present turbine type. -/
def typeBlockStage (cat : Catalog) (fuel : Nat) (cache : Cache) (turbine : PyDict)
    (turbineType2 extendedType : Option String) : Option (Option MatchOutcome) :=
  match turbineType2 with
  | none => some none
  | some t =>
      let opt3 : Option (Option MatchOutcome) :=
        match extendedType with
        | some et =>
            deriverStage cat fuel cache turbine (Val.str et) [Val.str et, Val.str t]
              "DatabaseLookup(Manufacturer+TurbineType)"
        | none => some none
      match opt3 with
      | none => none
      | some (some r) => some (some r)
      | some none =>
          let opt4 := deriverStage cat fuel cache turbine (Val.str t) [Val.str t]
            "DatabaseLookup(TurbineType)"
          match opt4 with
          | none => none
          | some (some r) => some (some r)
          | some none =>
              let opt3b : Option (Option MatchOutcome) :=
                match extendedType with
                | some et =>
                    if (parseModelName et).is_known_manufacturer then
                      match enrichModelDesignation cat (Val.str et) turbine true true with
                      | none => none
                      | some (enr, _) =>
                          if enr ≠ Val.str et then
                            deriverStage cat fuel cache turbine enr
                              [enr, Val.str et, Val.str t]
                              "DatabaseLookup(EnrichedTurbineType)"
                          else some none
                    else some none
                | none => some none
              match opt3b with
              | none => none
              | some (some r) => some (some r)
              | some none =>
                  if (parseModelName t).is_known_manufacturer then
                    match enrichModelDesignation cat (Val.str t) turbine true true with
                    | none => none
                    | some (enr, _) =>
                        if enr ≠ Val.str t then
                          deriverStage cat fuel cache turbine enr [enr, Val.str t]
                            "DatabaseLookup(EnrichedTurbineType)"
                        else some none
                  else some none

/-- Option 5 of the cascade: resolve the dimension/location mapper's guess. -/
def dimensionGuessStage (cat : Catalog) (fuel : Nat) (cache : Cache)
    (guess? : Option String) : Option (Option MatchOutcome) :=
  match guess? with
  | some g =>
      if g ≠ "" then guessStage cat fuel cache (Val.str g) "DimensionLocationMapper"
      else some none
  | none => some none

/-- Option 6 of the cascade: the direct dimension lookup on the record's own
tower properties.  Note that an accepted match here is returned with the cache
untouched. -/
def towerPropsStage (cat : Catalog) (cache : Cache)
    (diameter height power : Option ℚ) : Option MatchOutcome :=
  if !(diameter = none ∧ height = none ∧ power = none) then
    match getSpecsByTowerProperties cat diameter height power Val.none_ with
    | (some sp, idx) =>
        if sp.model_designation.truthy then
          some ((sp.model_designation, idx, "DatabaseLookup(TowerProperties)"), cache)
        else none
    | (none, _) => none
  else none

/-- Option 7 of the cascade: the deterministic hash-based fallback mapper. -/
def probabilisticStage (cfg : MatcherConfig) (cat : Catalog) (fuel : Nat)
    (cache : Cache) (turbineType2 : Option String) (lat lon : Val)
    (diameter : Option ℚ) : Option (Option MatchOutcome) :=
  if cfg.use_probabilistic_mapper then
    match valNumeric? lat, valNumeric? lon with
    | some la, some lo =>
        let g := probabilisticMap turbineType2 la lo diameter
        if g ≠ "" then guessStage cat fuel cache (Val.str g) "ProbabilisticMapper"
        else some none
    | _, _ => none
  else some none

/-- Option 8 of the cascade: the regional default selector. -/
def defaultSelectorStage (cfg : MatcherConfig) (cat : Catalog) (fuel : Nat)
    (cache : Cache) (defaultSelector : Val → Val → Val) (lat lon : Val) :
    Option (Option MatchOutcome) :=
  if cfg.use_default_selector then
    let fb := defaultSelector lat lon
    if fb.truthy then guessStage cat fuel cache fb "DefaultTurbineSelector"
    else some none
  else some none

/-- `TurbineMatcher.match_model_designation_on_turbine`: the eight-stage cascade.
The default-selector collaborator (`DefaultTurbineSelector.get_default_turbine`,
a function of latitude and longitude only) is passed in, mirroring its
constructor injection.  Returns the resolved triple and the updated cache;
`none` models an exception escaping the method (which `match` re-raises). -/
def matchModelDesignationOnTurbine (cfg : MatcherConfig) (cat : Catalog)
    (defaultSelector : Val → Val → Val) (fuel : Nat) (cache : Cache)
    (turbine : PyDict) : Option MatchOutcome :=
  match pyEmptyToNone (dictGetV turbine "manufacturer") with
  | none => none
  | some manufacturerV =>
  match pyEmptyToNone (dictGetV turbine "type") with
  | none => none
  | some turbineTypeV =>
  let manufacturer : Option String :=
    match manufacturerV with
    | Val.str s => some (stripQuestionMarks s)
    | _ => none
  let turbineType0 : Option String :=
    match turbineTypeV with
    | Val.str s => some (stripQuestionMarks s)
    | _ => none
  let lat := dictGetV turbine "latitude"
  let lon := dictGetV turbine "longitude"
  let diameter := pyZeroToNone (dictGetV turbine "diameter")
  let height := pyZeroToNone (dictGetV turbine "hub_height")
  let power := pyZeroToNone (dictGetV turbine "power_rating")
  -- delete forbidden turbine types
  let turbineType1 : Option String :=
    match turbineType0 with
    | some t => if cfg.forbidden_types.contains t then none else some t
    | none => none
  -- [Option 1]: cache hit on the raw type (plausibility-validated)
  match cacheHitStage cat cache turbine turbineType1 "CacheHit(TurbineType)" with
  | none => none
  | some (Sum.inl r) => some r
  | some (Sum.inr turbineType2) =>
  -- build the manufacturer-extended type
  let extendedType0 : Option String :=
    match turbineType2, manufacturer with
    | some t, some mf =>
        let parts := (splitOnChar ' ' mf.toList).map String.mk
        let manCode := parts.getD 0 "" ++
          (if parts.length > 1 then " " ++ parts.getD 1 "" else "")
        if parts.length > 0 ∧ !startsWithStr (pyLower t) (pyLower manCode) then
          some (manCode ++ " " ++ t)
        else none
    | _, _ => none
  -- [Option 2]: cache hit on the extended type (plausibility-validated)
  match cacheHitStage cat cache turbine extendedType0
      "CacheHit(Manufacturer+TurbineType)" with
  | none => none
  | some (Sum.inl r) => some r
  | some (Sum.inr extendedType) =>
  -- [Options 3, 4, 3b, 4b]: deriver lookups, gated on a present turbine type
  match typeBlockStage cat fuel cache turbine turbineType2 extendedType with
  | none => none
  | some (some r) => some r
  | some none =>
  -- [Option 5]: the dimension/location heuristic
  match dimensionLocationMap turbine with
  | none => none
  | some guess? =>
  match dimensionGuessStage cat fuel cache guess? with
  | none => none
  | some (some r) => some r
  | some none =>
  -- [Option 6]: tower properties (returned without touching the cache)
  match towerPropsStage cat cache diameter height power with
  | some r => some r
  | none =>
  -- [Option 7]: the deterministic hash-based fallback mapper
  match probabilisticStage cfg cat fuel cache turbineType2 lat lon diameter with
  | none => none
  | some (some r) => some r
  | some none =>
  -- [Option 8]: the regional default selector
  match defaultSelectorStage cfg cat fuel cache defaultSelector lat lon with
  | none => none
  | some (some r) => some r
  | some none => some ((Val.none_, none, "NotMatched"), cache)

/-- The matched-line-index cell written by `TurbineMatcher.match`
(`turbines.loc[idx, key] = matched_line_index or no_match_idx`, with Python
falsiness: both `None` and `0` fall through to the sentinel `-1`). -/
def storedMatchedLineIndex (matchedLineIndex : Option ℤ) : ℤ :=
  match matchedLineIndex with
  | none => -1
  | some i => if i = 0 then -1 else i

/-! ## A small concrete catalog and records, used by the witnesses and
counterexamples below.  The computed columns are consistent with the loader:
both designations parse under the Vestas rule, so `is_known_manufacturer` is
true, and both rows carry wind-speed data, so the filtered view keeps them. -/

/-- Catalog row 0: a Vestas V40 with diameter 40 m, hub height 60 m, 500 kW. -/
def demoSpec0 : Spec :=
  { type_code := Val.str "T100", type_id := Val.int 100,
    turbine_model := Val.str "Vestas V40-500",
    model_designation := Val.str "Vestas V40-500",
    manufacturer := Val.str "Vestas", diameter := Val.num 40, height := Val.num 60,
    rated_power := Val.num 500, is_offshore := Val.str "no", radius := Val.num 20,
    z_height := Val.num 60, is_manufacturer_data := Val.none_,
    wind_speeds_length := 10, model_designation_length := 14,
    is_known_manufacturer := true }

/-- Catalog row 1: a Vestas V80 with diameter 80 m, hub height 100 m, 2000 kW. -/
def demoSpec1 : Spec :=
  { type_code := Val.str "T101", type_id := Val.int 101,
    turbine_model := Val.str "Vestas V80-2.0",
    model_designation := Val.str "Vestas V80-2.0",
    manufacturer := Val.str "Vestas", diameter := Val.num 80, height := Val.num 100,
    rated_power := Val.num 2000, is_offshore := Val.str "no", radius := Val.num 40,
    z_height := Val.num 100, is_manufacturer_data := Val.none_,
    wind_speeds_length := 20, model_designation_length := 14,
    is_known_manufacturer := true }

/-- Catalog row 2: a Vestas V90 whose `type_code` column holds the bare code
`V90`, resolvable by the deriver's field lookup. -/
def demoSpec2 : Spec :=
  { type_code := Val.str "V90", type_id := Val.int 102,
    turbine_model := Val.str "Vestas V90-2.0",
    model_designation := Val.str "Vestas V90-2.0",
    manufacturer := Val.str "Vestas", diameter := Val.num 90, height := Val.num 105,
    rated_power := Val.num 2000, is_offshore := Val.str "no", radius := Val.num 45,
    z_height := Val.num 105, is_manufacturer_data := Val.none_,
    wind_speeds_length := 30, model_designation_length := 14,
    is_known_manufacturer := true }

/-- The two-row demo catalog. -/
def demoCat : Catalog := { rows := [demoSpec0, demoSpec1], hasIsManufacturerData := false }

/-- The demo catalog extended with the `V90` row. -/
def demoCatV90 : Catalog :=
  { rows := [demoSpec0, demoSpec1, demoSpec2], hasIsManufacturerData := false }

/-- A matcher configuration with the source's defaults (no forbidden types, both
fallback stages enabled). -/
def demoCfg : MatcherConfig :=
  { forbidden_types := [], use_probabilistic_mapper := true, use_default_selector := true }

/-- A default-selector collaborator that never proposes a type (the runs below
all resolve before the selector stage is consulted). -/
def noSelector : Val → Val → Val := fun _ _ => Val.none_

/-- A record whose type string `XYZZY` matches no parser rule and no catalog
field, whose diameter (50 m) lies in no heuristic band but inside the filtered
catalog's diameter range, so resolution reaches the tower-properties stage. -/
def xyzzyRecord : PyDict :=
  [("type", Val.str "XYZZY"), ("latitude", Val.num 52), ("longitude", Val.num 5),
   ("diameter", Val.num 50)]

/-- A record whose type `V90` resolves through the deriver's `type_code` lookup
on the extended demo catalog. -/
def v90Record : PyDict :=
  [("type", Val.str "V90"), ("latitude", Val.num 52), ("longitude", Val.num 5)]

/-- The relative power-tolerance band of the enrichment filter
(`abs(catalog_power - power) / power < (power / 750) / 100` in
`enrich_model_designation`), which the round-trip claim uses as its power
tolerance. -/
def enrichPowerToleranceOk (parsedPower power : ℚ) : Prop :=
  |parsedPower - power| / power < power / 750 / 100

instance (a b : ℚ) : Decidable (enrichPowerToleranceOk a b) := by
  unfold enrichPowerToleranceOk
  infer_instance

/-- The round-trip property of the claim, as a decidable check: building a
designation from `(m, d, p)` and re-parsing it recovers the manufacturer
case-insensitively, a diameter within the enrichment diameter band (±5) of `d`,
and a power within the enrichment power-tolerance band of `p`. -/
def roundTripOk (m : String) (d p : ℚ) : Bool :=
  match buildModelDesignation m d p with
  | none => false
  | some s =>
      let r := parseModelName s
      (match r.manufacturer with
       | some mf => pyLower mf = pyLower m
       | none => false) &&
      (match r.diameter with
       | some d2 => |d2 - d| < 5
       | none => false) &&
      (match r.power with
       | some (Val.num p2) => decide (enrichPowerToleranceOk p2 p)
       | _ => false)

/-- The observed values of one dimension column in the filtered catalog, as the
dimension lookup reads them. -/
def filteredCol (cat : Catalog) (f : Spec → Val) : List ℚ :=
  (filterSpecs cat).map (fun p => valFloat (f p.2))

/-- A turbine record with radius 80 and hub height 70 used to probe the
plausibility check. -/
def towerRec80 : PyDict :=
  [("radius", Val.num 80), ("hub_height", Val.num 70)]

/-- First-positive coalescing of two optional measurements, as the
`get_*_from_dict_list` loops perform it: the first strictly positive (and
truthy) value wins, otherwise 0. -/
def firstPositive (a b : Option ℚ) : ℚ :=
  if optTruthy a && a.getD 0 > 0 then a.getD 0
  else if optTruthy b && b.getD 0 > 0 then b.getD 0
  else 0

/-- The acceptance rule as the spec words it, for comparison with the source's
`tower_implements_turbine_type`: accept iff
`max(radius from record or candidate) < max(height from record or candidate)`,
with the individual radii and heights read by the source's own getters. -/
def specAcceptMaxRule (cat : Catalog) (towerProperties : PyDict)
    (matchedLineIndex : Option ℤ) : Option Bool :=
  match getSpecsByLineIndex cat matchedLineIndex with
  | none => none
  | some sp =>
      let rRec := (getRadiusFromDict towerProperties (some 0)).getD 0
      let rCand := (getRadiusFromDict sp.toDict (some 0)).getD 0
      let hRec := (getHeightD towerProperties (some 0)).getD 0
      let hCand := (getHeightD sp.toDict (some 0)).getD 0
      some (decide (max rRec rCand < max hRec hCand))

/-- Characterization of `powerToKw` with unknown unit and no diameter: the unit
is guessed from the magnitude alone. -/
theorem powerToKw_none_none (p : ℚ) :
    powerToKw (some p) none none =
      if 1000000 < p then some (p / 1000)
      else if 1000 < p then some p
      else if 0 < p ∧ p < 20 then some (p * 1000) else some p := by
  have e1 : pyUpper "W" = "W" := rfl
  have e2 : pyUpper "kW" = "KW" := rfl
  have h : powerToKw (some p) none none =
      some (applyUnit p (orElseUnit none (guessUnitFromMagnitude p))) := rfl
  rw [h]
  by_cases h5 : (1000000:ℚ) < p <;>
    by_cases h6 : (1000:ℚ) < p <;>
    by_cases h7 : 0 < p ∧ p < 20 <;>
    simp [guessUnitFromMagnitude, orElseUnit, applyUnit, gt_iff_lt, h5, h6, h7, e1, e2]

/-- Characterization of `powerToKw` with unknown unit and a supplied diameter:
the diameter-based guesses of the source, then the magnitude-based ones. -/
theorem powerToKw_none_some (p d : ℚ) :
    powerToKw (some p) none (some d) =
      if 35 ≤ d ∧ p < 1 then some (p * 1000)
      else if p < 450 then (if 60 ≤ d then some (p * 1000) else some p)
      else if 1000000 < p then some (p / 1000)
      else if 1000 < p then some p
      else some p := by
  have e1 : pyUpper "MW" = "MW" := rfl
  have e2 : pyUpper "kW" = "KW" := rfl
  have e3 : pyUpper "W" = "W" := rfl
  have h : powerToKw (some p) none (some d) =
      some (applyUnit p (orElseUnit (guessUnitFromDiameter p d) (guessUnitFromMagnitude p))) :=
    rfl
  rw [h]
  by_cases h1 : (35:ℚ) ≤ d <;>
    by_cases h2 : p < 1 <;>
    by_cases h3 : p < 450 <;>
    by_cases h4 : (60:ℚ) ≤ d <;>
    by_cases h5 : (1000000:ℚ) < p <;>
    by_cases h6 : (1000:ℚ) < p <;>
    by_cases h7 : 0 < p ∧ p < 20 <;>
    simp [guessUnitFromDiameter, guessUnitFromMagnitude, orElseUnit, applyUnit,
      ge_iff_le, gt_iff_lt, h1, h2, h3, h4, h5, h6, h7, e1, e2, e3] <;>
    first | rfl | linarith | (exfalso; rcases h7 with ⟨h7a, h7b⟩; linarith)

/-- On a two-element source list, the radius-list getter is exactly
first-positive coalescing of the per-dict radii. -/
theorem getRadiusL_pair (a b : PyDict) :
    (getRadiusL [a, b] (some 0)).getD 0 =
      firstPositive (getRadiusFromDict a (some 0)) (getRadiusFromDict b (some 0)) := by
  show (if optTruthy (getRadiusFromDict a (some 0)) &&
          (getRadiusFromDict a (some 0)).getD 0 > 0
        then getRadiusFromDict a (some 0)
        else if optTruthy (getRadiusFromDict b (some 0)) &&
          (getRadiusFromDict b (some 0)).getD 0 > 0
        then getRadiusFromDict b (some 0)
        else some 0).getD 0 = _
  rw [firstPositive]
  split_ifs <;> rfl

/-- On a two-element source list, the height-list getter is exactly
first-positive coalescing of the per-dict heights. -/
theorem getHeightL_pair (a b : PyDict) :
    (getHeightL [a, b] (some 0)).getD 0 =
      firstPositive (getHeightD a (some 0)) (getHeightD b (some 0)) := by
  rcases ha : getFloatFromDict heightKeys a (some 0) true with ⟨va, ka⟩
  rcases hb : getFloatFromDict heightKeys b (some 0) true with ⟨vb, kb⟩
  simp only [getHeightL, getHeightD, getFloatFromDictList, ha, hb, firstPositive]
  split_ifs <;> rfl

/-- The dimension lookup depends on the supplied diameter only through the
extrapolation guard's output. -/
theorem getSpecsByTowerProperties_diameter_congr (cat : Catalog) (d1 d2 hgt pow : Option ℚ)
    (off : Val)
    (h : dropIfOutOfRange d1 (filteredCol cat Spec.diameter) =
         dropIfOutOfRange d2 (filteredCol cat Spec.diameter)) :
    getSpecsByTowerProperties cat d1 hgt pow off =
      getSpecsByTowerProperties cat d2 hgt pow off := by
  simp only [filteredCol] at h
  simp only [getSpecsByTowerProperties]
  rw [h]

/-- The dimension lookup depends on the supplied height only through the
extrapolation guard's output. -/
theorem getSpecsByTowerProperties_height_congr (cat : Catalog) (dia h1 h2 pow : Option ℚ)
    (off : Val)
    (h : dropIfOutOfRange h1 (filteredCol cat Spec.height) =
         dropIfOutOfRange h2 (filteredCol cat Spec.height)) :
    getSpecsByTowerProperties cat dia h1 pow off =
      getSpecsByTowerProperties cat dia h2 pow off := by
  simp only [filteredCol] at h
  simp only [getSpecsByTowerProperties]
  rw [h]

/-- The dimension lookup depends on the supplied power only through the
extrapolation guard's output. -/
theorem getSpecsByTowerProperties_power_congr (cat : Catalog) (dia hgt p1 p2 : Option ℚ)
    (off : Val)
    (h : dropIfOutOfRange p1 (filteredCol cat Spec.rated_power) =
         dropIfOutOfRange p2 (filteredCol cat Spec.rated_power)) :
    getSpecsByTowerProperties cat dia hgt p1 off =
      getSpecsByTowerProperties cat dia hgt p2 off := by
  simp only [filteredCol] at h
  simp only [getSpecsByTowerProperties]
  rw [h]

/-- A value strictly outside the observed `[min, max]` of a column is discarded
by the extrapolation guard. -/
theorem dropIfOutOfRange_outside (x lo hi : ℚ) (col : List ℚ)
    (hlo : qMin? col = some lo) (hhi : qMax? col = some hi) (hout : x < lo ∨ hi < x) :
    dropIfOutOfRange (some x) col = none := by
  simp only [dropIfOutOfRange, hlo, hhi]
  rcases hout with h | h <;> rw [if_neg] <;> rintro ⟨h1, h2⟩ <;> linarith

/-- Appending entries on the right never changes the result of a successful
cache lookup (Python dict: the existing binding of a key is what `cache[key]`
returns). -/
theorem cacheLookup_append_left (c l : Cache) (k : Val) (v : Val × Option ℤ)
    (h : cacheLookup c k = some v) : cacheLookup (c ++ l) k = some v := by
  induction c with
  | nil => simp [cacheLookup] at h
  | cons e rest ih =>
      obtain ⟨a, b⟩ := e
      rw [List.cons_append]
      simp only [cacheLookup] at h ⊢
      by_cases hek : a = k
      · simpa [hek] using h
      · simp only [if_neg hek] at h ⊢
        exact ih h

/-- One `add_to_cache` call never changes the value of an already-present key:
each item is inserted only when absent. -/
theorem cacheLookup_addToCache_of_some (cache : Cache) (types : List Val)
    (md : Val) (idx : Option ℤ) (k : Val) (v : Val × Option ℤ)
    (h : cacheLookup cache k = some v) :
    cacheLookup (addToCache cache types md idx) k = some v := by
  induction types generalizing cache with
  | nil => simpa [addToCache] using h
  | cons t rest ih =>
      have hstep : addToCache cache (t :: rest) md idx =
          addToCache (if (cacheLookup cache t).isSome then cache
            else cache ++ [(t, (md, idx))]) rest md idx := rfl
      rw [hstep]
      apply ih
      by_cases hs : (cacheLookup cache t).isSome
      · simpa [hs] using h
      · rw [if_neg hs]
        exact cacheLookup_append_left _ _ _ _ h

/-- An accepted cache-hit stage returns the cache unchanged. -/
theorem cacheHitStage_inl {cat : Catalog} {cache : Cache} {turbine : PyDict}
    {key? : Option String} {tag : String} {r : MatchOutcome}
    (h : cacheHitStage cat cache turbine key? tag = some (Sum.inl r)) :
    r.2 = cache := by
  unfold cacheHitStage at h
  repeat' (first | split at h | (simp_all; done) | simp_all)
  all_goals (subst h; rfl)

/-- An accepted deriver stage carries the stage's own strategy tag. -/
theorem deriverStage_tag {cat : Catalog} {fuel : Nat} {cache : Cache} {turbine : PyDict}
    {probe : Val} {keys : List Val} {tag : String} {r : MatchOutcome}
    (h : deriverStage cat fuel cache turbine probe keys tag = some (some r)) :
    r.1.2.2 = tag := by
  unfold deriverStage at h
  repeat' (first | split at h | (simp_all; done) | simp_all)
  all_goals (subst h; rfl)

/-- An accepted guess stage carries the stage's own strategy tag. -/
theorem guessStage_tag {cat : Catalog} {fuel : Nat} {cache : Cache} {guess : Val}
    {tag : String} {r : MatchOutcome}
    (h : guessStage cat fuel cache guess tag = some (some r)) :
    r.1.2.2 = tag := by
  unfold guessStage at h
  repeat' (first | split at h | (simp_all; done) | simp_all)
  all_goals (subst h; rfl)

/-- The deriver block only ever produces deriver strategy tags. -/
theorem typeBlockStage_tag {cat : Catalog} {fuel : Nat} {cache : Cache}
    {turbine : PyDict} {t2 et : Option String} {r : MatchOutcome}
    (h : typeBlockStage cat fuel cache turbine t2 et = some (some r)) :
    r.1.2.2 ≠ "DatabaseLookup(TowerProperties)" := by
  unfold typeBlockStage at h
  repeat' (first | split at h | (simp_all; done) | simp_all)
  all_goals (rw [deriverStage_tag (by assumption)]; simp)

/-- An accepted dimension/location stage is tagged `DimensionLocationMapper`. -/
theorem dimensionGuessStage_tag {cat : Catalog} {fuel : Nat} {cache : Cache}
    {guess? : Option String} {r : MatchOutcome}
    (h : dimensionGuessStage cat fuel cache guess? = some (some r)) :
    r.1.2.2 = "DimensionLocationMapper" := by
  unfold dimensionGuessStage at h
  repeat' (first | split at h | (simp_all; done) | simp_all)
  all_goals exact guessStage_tag (by assumption)

/-- An accepted probabilistic-mapper stage is tagged `ProbabilisticMapper`. -/
theorem probabilisticStage_tag {cfg : MatcherConfig} {cat : Catalog} {fuel : Nat}
    {cache : Cache} {t2 : Option String} {lat lon : Val} {d : Option ℚ}
    {r : MatchOutcome}
    (h : probabilisticStage cfg cat fuel cache t2 lat lon d = some (some r)) :
    r.1.2.2 = "ProbabilisticMapper" := by
  unfold probabilisticStage at h
  repeat' (first | split at h | (simp_all; done) | simp_all)
  all_goals exact guessStage_tag (by assumption)

/-- An accepted default-selector stage is tagged `DefaultTurbineSelector`. -/
theorem defaultSelectorStage_tag {cfg : MatcherConfig} {cat : Catalog} {fuel : Nat}
    {cache : Cache} {sel : Val → Val → Val} {lat lon : Val} {r : MatchOutcome}
    (h : defaultSelectorStage cfg cat fuel cache sel lat lon = some (some r)) :
    r.1.2.2 = "DefaultTurbineSelector" := by
  unfold defaultSelectorStage at h
  repeat' (first | split at h | (simp_all; done) | simp_all)
  all_goals exact guessStage_tag (by assumption)

/-- An accepted tower-properties stage returns the cache unchanged: the source's
Option 6 returns without calling `add_to_cache`. -/
theorem towerPropsStage_cache {cat : Catalog} {cache : Cache} {d hgt p : Option ℚ}
    {r : MatchOutcome} (h : towerPropsStage cat cache d hgt p = some r) :
    r.2 = cache := by
  unfold towerPropsStage at h
  repeat' (first | split at h | (simp_all; done) | simp_all)
  all_goals (subst h; rfl)

/-- An accepted cache-hit stage carries the stage's own strategy tag. -/
theorem cacheHitStage_inl_tag {cat : Catalog} {cache : Cache} {turbine : PyDict}
    {key? : Option String} {tag : String} {r : MatchOutcome}
    (h : cacheHitStage cat cache turbine key? tag = some (Sum.inl r)) :
    r.1.2.2 = tag := by
  unfold cacheHitStage at h
  repeat' (first | split at h | (simp_all; done) | simp_all)
  all_goals (subst h; rfl)

/-- An accepted tower-properties stage is tagged `DatabaseLookup(TowerProperties)`. -/
theorem towerPropsStage_tag {cat : Catalog} {cache : Cache} {d hgt p : Option ℚ}
    {r : MatchOutcome} (h : towerPropsStage cat cache d hgt p = some r) :
    r.1.2.2 = "DatabaseLookup(TowerProperties)" := by
  unfold towerPropsStage at h
  repeat' (first | split at h | (simp_all; done) | simp_all)
  all_goals (subst h; rfl)

/-- An accepted deriver stage returns exactly `add_to_cache` of its key list on
the entry cache. -/
theorem deriverStage_cacheEq {cat : Catalog} {fuel : Nat} {cache : Cache}
    {turbine : PyDict} {probe : Val} {keys : List Val} {tag : String} {r : MatchOutcome}
    (h : deriverStage cat fuel cache turbine probe keys tag = some (some r)) :
    r.2 = addToCache cache keys r.1.1 r.1.2.1 := by
  unfold deriverStage at h
  repeat' (first | split at h | (simp_all; done) | simp_all)
  all_goals (subst h; rfl)

/-- An accepted guess stage returns exactly `add_to_cache` of its guess key on
the entry cache. -/
theorem guessStage_cacheEq {cat : Catalog} {fuel : Nat} {cache : Cache} {guess : Val}
    {tag : String} {r : MatchOutcome}
    (h : guessStage cat fuel cache guess tag = some (some r)) :
    r.2 = addToCache cache [guess] r.1.1 r.1.2.1 := by
  unfold guessStage at h
  repeat' (first | split at h | (simp_all; done) | simp_all)
  all_goals (subst h; rfl)

/-- An accepted deriver-block match returns `add_to_cache` of a nonempty key
list (the stage's probe keys) on the entry cache. -/
theorem typeBlockStage_cacheEq {cat : Catalog} {fuel : Nat} {cache : Cache}
    {turbine : PyDict} {t2 et : Option String} {r : MatchOutcome}
    (h : typeBlockStage cat fuel cache turbine t2 et = some (some r)) :
    ∃ ks, ks ≠ [] ∧ r.2 = addToCache cache ks r.1.1 r.1.2.1 := by
  unfold typeBlockStage at h
  repeat' (first | split at h | (simp_all; done) | simp_all)
  all_goals (refine ⟨_, ?_, deriverStage_cacheEq (by assumption)⟩; simp)

/-- An accepted dimension/location-mapper match returns `add_to_cache` of a
nonempty key list on the entry cache. -/
theorem dimensionGuessStage_cacheEq {cat : Catalog} {fuel : Nat} {cache : Cache}
    {guess? : Option String} {r : MatchOutcome}
    (h : dimensionGuessStage cat fuel cache guess? = some (some r)) :
    ∃ ks, ks ≠ [] ∧ r.2 = addToCache cache ks r.1.1 r.1.2.1 := by
  unfold dimensionGuessStage at h
  repeat' (first | split at h | (simp_all; done) | simp_all)
  all_goals (refine ⟨_, ?_, guessStage_cacheEq (by assumption)⟩; simp)

/-- An accepted probabilistic-mapper match returns `add_to_cache` of a nonempty
key list on the entry cache. -/
theorem probabilisticStage_cacheEq {cfg : MatcherConfig} {cat : Catalog} {fuel : Nat}
    {cache : Cache} {t2 : Option String} {lat lon : Val} {d : Option ℚ}
    {r : MatchOutcome}
    (h : probabilisticStage cfg cat fuel cache t2 lat lon d = some (some r)) :
    ∃ ks, ks ≠ [] ∧ r.2 = addToCache cache ks r.1.1 r.1.2.1 := by
  unfold probabilisticStage at h
  repeat' (first | split at h | (simp_all; done) | simp_all)
  all_goals (refine ⟨_, ?_, guessStage_cacheEq (by assumption)⟩; simp)

/-- An accepted default-selector match returns `add_to_cache` of a nonempty key
list on the entry cache. -/
theorem defaultSelectorStage_cacheEq {cfg : MatcherConfig} {cat : Catalog} {fuel : Nat}
    {cache : Cache} {sel : Val → Val → Val} {lat lon : Val} {r : MatchOutcome}
    (h : defaultSelectorStage cfg cat fuel cache sel lat lon = some (some r)) :
    ∃ ks, ks ≠ [] ∧ r.2 = addToCache cache ks r.1.1 r.1.2.1 := by
  unfold defaultSelectorStage at h
  repeat' (first | split at h | (simp_all; done) | simp_all)
  all_goals (refine ⟨_, ?_, guessStage_cacheEq (by assumption)⟩; simp)

/-- Splitting a cache lookup across an append: the left part's binding wins. -/
theorem cacheLookup_append (c l : Cache) (k : Val) :
    cacheLookup (c ++ l) k =
      (match cacheLookup c k with
       | some v => some v
       | none => cacheLookup l k) := by
  induction c with
  | nil => simp [cacheLookup]
  | cons e rest ih =>
      obtain ⟨a, b⟩ := e
      by_cases hek : a = k <;> simp [cacheLookup, hek, ih]

/-- A key absent before `add_to_cache` and among its items maps to the inserted
pair afterwards. -/
theorem cacheLookup_addToCache_of_none_mem (cache : Cache) (ks : List Val) (md : Val)
    (idx : Option ℤ) (k : Val) (hk : cacheLookup cache k = none) (hmem : k ∈ ks) :
    cacheLookup (addToCache cache ks md idx) k = some (md, idx) := by
  induction ks generalizing cache with
  | nil => cases hmem
  | cons t rest ih =>
      have hstep : addToCache cache (t :: rest) md idx =
          addToCache (if (cacheLookup cache t).isSome then cache
            else cache ++ [(t, (md, idx))]) rest md idx := rfl
      rw [hstep]
      by_cases hkt : k = t
      · subst hkt
        rw [hk]
        simp only [Option.isSome_none, Bool.false_eq_true, if_false]
        have h1 : cacheLookup (cache ++ [(k, (md, idx))]) k = some (md, idx) := by
          rw [cacheLookup_append, hk]
          simp [cacheLookup]
        exact cacheLookup_addToCache_of_some _ _ _ _ _ _ h1
      · have hmem' : k ∈ rest := by
          rcases List.mem_cons.mp hmem with h | h
          · exact absurd h hkt
          · exact h
        by_cases hst : (cacheLookup cache t).isSome
        · rw [if_pos hst]
          exact ih cache hk hmem'
        · rw [if_neg hst]
          apply ih
          · rw [cacheLookup_append, hk]
            simp [cacheLookup, Ne.symm hkt]
          · exact hmem'

/-- After `add_to_cache`, every inserted key is present: bound to its previous
value when one existed (first writer wins), to the new pair otherwise. -/
theorem cacheLookup_addToCache_mem (cache : Cache) (ks : List Val) (md : Val)
    (idx : Option ℤ) (k : Val) (hmem : k ∈ ks) :
    cacheLookup (addToCache cache ks md idx) k =
      some ((cacheLookup cache k).getD (md, idx)) := by
  cases hk : cacheLookup cache k with
  | none => rw [cacheLookup_addToCache_of_none_mem cache ks md idx k hk hmem]; rfl
  | some v => rw [cacheLookup_addToCache_of_some cache ks md idx k v hk]; rfl

set_option maxHeartbeats 2000000 in
/-- Every accepted match whose strategy tag belongs to a deriver or guess stage
returns `add_to_cache` of a nonempty key list on the entry cache: those stages
always write their result before returning. -/
theorem matchOutcome_noncache_cached (cfg : MatcherConfig) (cat : Catalog)
    (sel : Val → Val → Val) (fuel : Nat) (cache : Cache) (turbine : PyDict)
    (md : Val) (idx : Option ℤ) (tag : String) (c' : Cache)
    (h : matchModelDesignationOnTurbine cfg cat sel fuel cache turbine =
      some ((md, idx, tag), c'))
    (htag : tag = "DatabaseLookup(Manufacturer+TurbineType)" ∨
      tag = "DatabaseLookup(TurbineType)" ∨
      tag = "DatabaseLookup(EnrichedTurbineType)" ∨
      tag = "DimensionLocationMapper" ∨
      tag = "ProbabilisticMapper" ∨
      tag = "DefaultTurbineSelector") :
    ∃ ks, ks ≠ [] ∧ c' = addToCache cache ks md idx := by
  simp only [matchModelDesignationOnTurbine] at h
  repeat' split at h
  all_goals try exact Option.noConfusion h
  all_goals try (simp only [Option.some.injEq] at h)
  all_goals try subst h
  all_goals first
    | exact typeBlockStage_cacheEq (by assumption)
    | exact dimensionGuessStage_cacheEq (by assumption)
    | exact probabilisticStage_cacheEq (by assumption)
    | exact defaultSelectorStage_cacheEq (by assumption)
    | (have ht : tag = "CacheHit(TurbineType)" := cacheHitStage_inl_tag (by assumption)
       subst ht
       simp at htag)
    | (have ht : tag = "CacheHit(Manufacturer+TurbineType)" :=
         cacheHitStage_inl_tag (by assumption)
       subst ht
       simp at htag)
    | (have ht : tag = "DatabaseLookup(TowerProperties)" :=
         towerPropsStage_tag (by assumption)
       subst ht
       simp at htag)
    | (have htg : ("NotMatched" : String) = tag := congrArg (fun p => p.1.2.2) h
       subst htg
       simp at htag)

set_option maxHeartbeats 2000000 in
/-- Every match returned with the `DatabaseLookup(TowerProperties)` tag leaves
the cache exactly as it was: the source's Option 6 returns without calling
`add_to_cache`. -/
theorem matchOutcome_towerProps_cache (cfg : MatcherConfig) (cat : Catalog)
    (sel : Val → Val → Val) (fuel : Nat) (cache : Cache) (turbine : PyDict)
    (md : Val) (idx : Option ℤ) (c' : Cache)
    (h : matchModelDesignationOnTurbine cfg cat sel fuel cache turbine =
      some ((md, idx, "DatabaseLookup(TowerProperties)"), c')) :
    c' = cache := by
  simp only [matchModelDesignationOnTurbine] at h
  repeat' split at h
  all_goals try exact Option.noConfusion h
  all_goals try (simp only [Option.some.injEq] at h)
  all_goals try subst h
  all_goals first
    | (simp_all; done)
    | exact cacheHitStage_inl (by assumption)
    | exact absurd rfl (typeBlockStage_tag (by assumption))
    | exact absurd (dimensionGuessStage_tag (by assumption)) (by simp)
    | exact towerPropsStage_cache (by assumption)
    | exact absurd (probabilisticStage_tag (by assumption)) (by simp)
    | exact absurd (defaultSelectorStage_tag (by assumption)) (by simp)

/-! ### Lemmas for the question-mark stripping claim: none of the cascade's
collaborators ever reads the `"type"` key of the record, so a record extended
with any `"type"` binding behaves as the record itself does in every stage
that consumes the dict. -/

theorem dictGetV_cons (k0 : String) (a : Val) (r : PyDict) (k : String) :
    dictGetV ((k0, a) :: r) k = if k0 = k then a else dictGetV r k := rfl

theorem dictHas_cons (k0 : String) (a : Val) (r : PyDict) (k : String) :
    dictHas ((k0, a) :: r) k = (decide (k0 = k) || dictHas r k) := rfl

theorem getFloatFromDict_dropType {keys : List String} (a : Val) (r : PyDict)
    {dflt : Option ℚ} {rp : Bool} (h : "type" ∉ keys) :
    getFloatFromDict keys (("type", a) :: r) dflt rp = getFloatFromDict keys r dflt rp := by
  induction keys with
  | nil => rfl
  | cons key rest ih =>
      have hne : "type" ≠ key := by
        intro he
        exact h (by rw [he]; exact List.mem_cons_self key rest)
      have h' : "type" ∉ rest := fun hm => h (List.mem_cons_of_mem key hm)
      simp only [getFloatFromDict, dictHas_cons, dictGetV_cons, ih h']
      simp [hne]

theorem getRadiusFromDict_dropType (a : Val) (r : PyDict) (dflt : Option ℚ) :
    getRadiusFromDict (("type", a) :: r) dflt = getRadiusFromDict r dflt := by
  simp [getRadiusFromDict, getFloatFromDict_dropType, diameterKeys]

theorem getHeightD_dropType (a : Val) (r : PyDict) (dflt : Option ℚ) :
    getHeightD (("type", a) :: r) dflt = getHeightD r dflt := by
  simp [getHeightD, getFloatFromDict_dropType, heightKeys]

theorem getDiameterD_dropType (a : Val) (r : PyDict) (dflt : Option ℚ) :
    getDiameterD (("type", a) :: r) dflt = getDiameterD r dflt := by
  simp [getDiameterD, getRadiusFromDict_dropType]

theorem getRatedPowerKwD_dropType (a : Val) (r : PyDict) (dflt : Option ℚ) :
    getRatedPowerKwD (("type", a) :: r) dflt = getRatedPowerKwD r dflt := by
  simp [getRatedPowerKwD, getFloatFromDict_dropType, getRadiusFromDict_dropType, powerKeys]

theorem getRadiusFromDictList_dropType (a : Val) (r : PyDict) (ds : List PyDict)
    (dflt : Option ℚ) :
    getRadiusFromDictList ((("type", a) :: r) :: ds) dflt =
      getRadiusFromDictList (r :: ds) dflt := by
  simp [getRadiusFromDictList, getRadiusFromDict_dropType]

theorem getFloatFromDictList_dropType {keys : List String} (a : Val) (r : PyDict)
    (ds : List PyDict) {dflt : Option ℚ} {rp : Bool} (h : "type" ∉ keys) :
    getFloatFromDictList keys ((("type", a) :: r) :: ds) dflt rp =
      getFloatFromDictList keys (r :: ds) dflt rp := by
  simp [getFloatFromDictList, getFloatFromDict_dropType, h]

theorem towerImplementsTurbineType_dropType (cat : Catalog) (a : Val) (r : PyDict)
    (idx : Option ℤ) :
    towerImplementsTurbineType cat (("type", a) :: r) idx =
      towerImplementsTurbineType cat r idx := by
  simp [towerImplementsTurbineType, getRadiusL, getHeightL,
    getRadiusFromDictList_dropType, getFloatFromDictList_dropType, heightKeys]

theorem towerImplementsCachedType_dropType (cat : Catalog) (cache : Cache) (a : Val)
    (r : PyDict) (k : Val) :
    towerImplementsCachedType cat cache (("type", a) :: r) k =
      towerImplementsCachedType cat cache r k := by
  simp [towerImplementsCachedType, towerImplementsTurbineType_dropType]

theorem cacheHitStage_dropType (cat : Catalog) (cache : Cache) (a : Val) (r : PyDict)
    (key? : Option String) (tag : String) :
    cacheHitStage cat cache (("type", a) :: r) key? tag =
      cacheHitStage cat cache r key? tag := by
  simp [cacheHitStage, towerImplementsCachedType_dropType]

theorem enrichModelDesignation_dropType (cat : Catalog) (md : Val) (a : Val) (r : PyDict)
    (e f : Bool) :
    enrichModelDesignation cat md (("type", a) :: r) e f =
      enrichModelDesignation cat md r e f := by
  unfold enrichModelDesignation
  rw [getRatedPowerKwD_dropType, getDiameterD_dropType]

theorem byTTFields_dropType (cat : Catalog)
    (recur : Val → List String → Option String → PyDict → Bool → Option (Val × Option ℤ × Bool))
    (rows : List (ℤ × Spec)) (tt : Val) (sf : String) (a : Val) (r : PyDict)
    (filtered : Bool) (fields : List String) (links : List DerivLink) :
    byTTFields cat recur rows tt sf (("type", a) :: r) filtered fields links =
      byTTFields cat recur rows tt sf r filtered fields links := by
  induction fields generalizing links with
  | nil => rfl
  | cons fld rest ih =>
      unfold byTTFields
      simp only [enrichModelDesignation_dropType, ih]

set_option maxHeartbeats 1000000 in
theorem byTurbineTypeStep_dropType (cat : Catalog)
    (recur : Val → List String → Option String → PyDict → Bool →
      Option (Val × Option ℤ × Bool))
    (tt : Val) (fields : List String) (sf : Option String) (a : Val) (r : PyDict)
    (filtered : Bool) :
    byTurbineTypeStep cat recur tt fields sf (("type", a) :: r) filtered =
      byTurbineTypeStep cat recur tt fields sf r filtered := by
  unfold byTurbineTypeStep
  simp -zeta only [byTTFields_dropType, enrichModelDesignation_dropType]

theorem byTurbineType_dropType (cat : Catalog) (fuel : Nat) (tt : Val)
    (fields : List String) (sf : Option String) (a : Val) (r : PyDict) (filtered : Bool) :
    byTurbineType cat fuel tt fields sf (("type", a) :: r) filtered =
      byTurbineType cat fuel tt fields sf r filtered := by
  cases fuel with
  | zero => rfl
  | succ n =>
      show byTurbineTypeStep cat (byTurbineType cat n) tt fields sf (("type", a) :: r)
          filtered =
        byTurbineTypeStep cat (byTurbineType cat n) tt fields sf r filtered
      exact byTurbineTypeStep_dropType cat (byTurbineType cat n) tt fields sf a r filtered

theorem deriverStage_dropType (cat : Catalog) (fuel : Nat) (cache : Cache) (a : Val)
    (r : PyDict) (probe : Val) (keys : List Val) (tag : String) :
    deriverStage cat fuel cache (("type", a) :: r) probe keys tag =
      deriverStage cat fuel cache r probe keys tag := by
  simp only [deriverStage, byTurbineType_dropType, towerImplementsTurbineType_dropType]

set_option maxHeartbeats 2000000 in
theorem typeBlockStage_dropType (cat : Catalog) (fuel : Nat) (cache : Cache) (a : Val)
    (r : PyDict) (t2 et : Option String) :
    typeBlockStage cat fuel cache (("type", a) :: r) t2 et =
      typeBlockStage cat fuel cache r t2 et := by
  simp only [typeBlockStage, deriverStage_dropType, enrichModelDesignation_dropType]

set_option maxHeartbeats 2000000 in
theorem dimensionLocationMap_dropType (a : Val) (r : PyDict) :
    dimensionLocationMap (("type", a) :: r) = dimensionLocationMap r := by
  rcases Bool.eq_false_or_eq_true (validCell (dictGetV r "country")) with hc | hc <;>
    rcases Bool.eq_false_or_eq_true (validCell (dictGetV r "country_code")) with hcc | hcc <;>
    simp only [dimensionLocationMap, dictGetV_cons, getDiameterD_dropType,
      getHeightD_dropType, getRatedPowerKwD_dropType, List.find?, hc, hcc,
      String.reduceEq, reduceIte]

/-! ## The claims -/

set_option maxHeartbeats 2000000 in
/-- C10.  Leading and trailing `?` characters are stripped from the record's
raw type string before any cascade stage runs: a record whose type is `"V90?"`
resolves to exactly the same (designation, line index, strategy tag) triple —
and the same final cache — as one whose type is `"V90"`, for every
configuration, catalog, selector, fuel, cache and remaining record fields.  No
other consumer of the record ever reads the `"type"` key, so only the stripped
string matters. -/
theorem c10_question_marks_stripped_before_stages (cfg : MatcherConfig) (cat : Catalog)
    (sel : Val → Val → Val) (fuel : Nat) (cache : Cache) (r : PyDict) :
    matchModelDesignationOnTurbine cfg cat sel fuel cache
        (("type", Val.str "V90?") :: r) =
      matchModelDesignationOnTurbine cfg cat sel fuel cache
        (("type", Val.str "V90") :: r) := by
  have h1 : stripQuestionMarks "V90?" = "V90" := by with_unfolding_all rfl
  have h2 : stripQuestionMarks "V90" = "V90" := by with_unfolding_all rfl
  simp only [matchModelDesignationOnTurbine, dictGetV_cons, cacheHitStage_dropType,
    typeBlockStage_dropType, dimensionLocationMap_dropType, h1, h2, pyEmptyToNone,
    String.reduceEq, reduceIte]

/-- C1 counterexample.  The claim says `tower_implements_turbine_type` accepts
iff `max(radius from record or candidate) < max(height from record or
candidate)`.  The code instead coalesces: the record's radius and height, when
positive, shadow the candidate's entirely.  For a record with radius 80 and hub
height 70 against catalog line 1 (radius 40, height 100), the max rule accepts
(`max 80 40 = 80 < 100 = max 70 100`) but the code compares 80 against the
record's own height 70 and rejects. -/
theorem c1_plausibility_counterexample :
    towerImplementsTurbineType demoCat towerRec80 (some 1) = some false ∧
    specAcceptMaxRule demoCat towerRec80 (some 1) = some true := by
  constructor <;> with_unfolding_all rfl

/-- C1 as amended.  For every record and every line index resolving to a
candidate row, the check accepts iff the first-positive coalescing of the
record's and the candidate's radius (record first) is below the first-positive
coalescing of their heights — not the maximum: a positive record value hides
the candidate's value in each dimension. -/
theorem c1_plausibility_amended (cat : Catalog) (tower : PyDict) (idx : Option ℤ)
    (sp : Spec) (h : getSpecsByLineIndex cat idx = some sp) :
    towerImplementsTurbineType cat tower idx =
      some (decide
        (firstPositive (getRadiusFromDict tower (some 0))
            (getRadiusFromDict sp.toDict (some 0)) <
         firstPositive (getHeightD tower (some 0)) (getHeightD sp.toDict (some 0)))) := by
  simp only [towerImplementsTurbineType, h]
  rw [getRadiusL_pair, getHeightL_pair]

/-- Witness for the amended C1, applying it to the radius-80 record and
catalog line 1. -/
theorem c1_plausibility_amended_witness :
    towerImplementsTurbineType demoCat towerRec80 (some 1) =
      some (decide
        (firstPositive (getRadiusFromDict towerRec80 (some 0))
            (getRadiusFromDict demoSpec1.toDict (some 0)) <
         firstPositive (getHeightD towerRec80 (some 0))
            (getHeightD demoSpec1.toDict (some 0)))) :=
  c1_plausibility_amended demoCat towerRec80 (some 1) demoSpec1 (by with_unfolding_all rfl)

/-- C2.  The extrapolation guard of `get_specs_by_tower_properties`: a supplied
dimension (diameter, height or power) lying strictly outside the filtered
catalog's observed `[min, max]` for that dimension is discarded from scoring —
the lookup returns exactly what it returns when that dimension is not supplied
at all, so no match is ever selected against the out-of-range value. -/
theorem c2_extrapolation_guard (cat : Catalog) (off : Val) (hgt pow : Option ℚ) :
    (∀ d lo hi, qMin? (filteredCol cat Spec.diameter) = some lo →
      qMax? (filteredCol cat Spec.diameter) = some hi → d < lo ∨ hi < d →
      getSpecsByTowerProperties cat (some d) hgt pow off =
        getSpecsByTowerProperties cat none hgt pow off) ∧
    (∀ h lo hi dia, qMin? (filteredCol cat Spec.height) = some lo →
      qMax? (filteredCol cat Spec.height) = some hi → h < lo ∨ hi < h →
      getSpecsByTowerProperties cat dia (some h) pow off =
        getSpecsByTowerProperties cat dia none pow off) ∧
    (∀ p lo hi dia, qMin? (filteredCol cat Spec.rated_power) = some lo →
      qMax? (filteredCol cat Spec.rated_power) = some hi → p < lo ∨ hi < p →
      getSpecsByTowerProperties cat dia hgt (some p) off =
        getSpecsByTowerProperties cat dia hgt none off) := by
  refine ⟨?_, ?_, ?_⟩
  · intro d lo hi hlo hhi hout
    exact getSpecsByTowerProperties_diameter_congr cat (some d) none hgt pow off
      (dropIfOutOfRange_outside d lo hi _ hlo hhi hout)
  · intro h lo hi dia hlo hhi hout
    exact getSpecsByTowerProperties_height_congr cat dia (some h) none pow off
      (dropIfOutOfRange_outside h lo hi _ hlo hhi hout)
  · intro p lo hi dia hlo hhi hout
    exact getSpecsByTowerProperties_power_congr cat dia hgt (some p) none off
      (dropIfOutOfRange_outside p lo hi _ hlo hhi hout)

/-- Witness for C2, applying the guard to an out-of-range diameter (500 against
observed `[40, 80]`), height (10 against `[60, 100]`) and power (50000 against
`[500, 2000]`) on the demo catalog. -/
theorem c2_extrapolation_guard_witness :
    (getSpecsByTowerProperties demoCat (some 500) none (some 2000) Val.none_ =
      getSpecsByTowerProperties demoCat none none (some 2000) Val.none_) ∧
    (getSpecsByTowerProperties demoCat (some 40) (some 10) (some 2000) Val.none_ =
      getSpecsByTowerProperties demoCat (some 40) none (some 2000) Val.none_) ∧
    (getSpecsByTowerProperties demoCat (some 40) none (some 50000) Val.none_ =
      getSpecsByTowerProperties demoCat (some 40) none none Val.none_) :=
  ⟨(c2_extrapolation_guard demoCat Val.none_ none (some 2000)).1 500 40 80
      (by with_unfolding_all rfl) (by with_unfolding_all rfl) (by norm_num),
   (c2_extrapolation_guard demoCat Val.none_ none (some 2000)).2.1 10 60 100 (some 40)
      (by with_unfolding_all rfl) (by with_unfolding_all rfl) (by norm_num),
   (c2_extrapolation_guard demoCat Val.none_ none none).2.2 50000 500 2000 (some 40)
      (by with_unfolding_all rfl) (by with_unfolding_all rfl) (by norm_num)⟩

/-- C3.  Cache monotonicity: once a key is bound in the match cache, no later
sequence of `add_to_cache` insertions — whatever keys and values they carry —
changes the value the cache returns for it.  The first writer wins for the rest
of the run, because `add_to_cache` inserts an item only when its key is absent
and lookups return the existing binding. -/
theorem c3_cache_write_once (cache : Cache) (k : Val) (v : Val × Option ℤ)
    (ops : List (List Val × Val × Option ℤ))
    (h : cacheLookup cache k = some v) :
    cacheLookup (ops.foldl (fun c op => addToCache c op.1 op.2.1 op.2.2) cache) k =
      some v := by
  induction ops generalizing cache with
  | nil => simpa using h
  | cons op rest ih =>
      rw [List.foldl_cons]
      exact ih _ (cacheLookup_addToCache_of_some _ _ _ _ _ _ h)

/-- Witness for C3: a cached `"V90" ↦ ("A", 1)` survives a later insertion of
`"V90" ↦ ("B", 2)` unchanged. -/
theorem c3_cache_write_once_witness :
    cacheLookup (([([Val.str "V90"], Val.str "B", some 2)] :
        List (List Val × Val × Option ℤ)).foldl
      (fun c op => addToCache c op.1 op.2.1 op.2.2)
      [(Val.str "V90", (Val.str "A", some 1))]) (Val.str "V90") =
      some (Val.str "A", some 1) :=
  c3_cache_write_once [(Val.str "V90", (Val.str "A", some 1))] (Val.str "V90")
    (Val.str "A", some 1) [([Val.str "V90"], Val.str "B", some 2)]
    (by with_unfolding_all rfl)

/-- C4 counterexample.  The claim says every accepted non-cache match — the
`DatabaseLookup(TowerProperties)` stage included — is written into the
run-scoped cache before returning.  A record with an unresolvable type but a
usable diameter is accepted by the tower-properties stage, yet the returned
cache is still empty: a subsequent identical record cannot resolve from the
cache. -/
theorem c4_tower_props_not_cached_counterexample :
    matchModelDesignationOnTurbine demoCfg demoCat noSelector 50 [] xyzzyRecord =
      some ((Val.str "Vestas V40-500", some 0, "DatabaseLookup(TowerProperties)"), []) ∧
    cacheLookup ([] : Cache) (Val.str "XYZZY") = none :=
  ⟨by with_unfolding_all rfl, rfl⟩

/-- C4 as amended.  First conjunct, universal over every configuration,
catalog, selector, fuel, cache and record: an accepted match tagged
`DatabaseLookup(TowerProperties)` is returned with the cache exactly as it was
(the stage never writes it), while an accepted match carrying any other
non-cache-hit, non-NotMatched strategy tag — the three deriver lookups, the
dimension/location mapper, the probabilistic mapper and the default selector —
returns precisely `add_to_cache` of a nonempty key list on the entry cache.
Second conjunct, universal: `add_to_cache` leaves every inserted key present,
bound to its previous value when one existed (first writer wins) and to the new
(designation, index) pair otherwise.  Third conjunct: concretely, a
deriver-stage match on the extended demo catalog returns with its bare type
string cached. -/
theorem c4_noncache_matches_cached_except_tower_props :
    (∀ (cfg : MatcherConfig) (cat : Catalog) (sel : Val → Val → Val) (fuel : Nat)
      (cache : Cache) (turbine : PyDict) (md : Val) (idx : Option ℤ) (tag : String)
      (c' : Cache),
      matchModelDesignationOnTurbine cfg cat sel fuel cache turbine =
        some ((md, idx, tag), c') →
      (tag = "DatabaseLookup(TowerProperties)" → c' = cache) ∧
      ((tag = "DatabaseLookup(Manufacturer+TurbineType)" ∨
        tag = "DatabaseLookup(TurbineType)" ∨
        tag = "DatabaseLookup(EnrichedTurbineType)" ∨
        tag = "DimensionLocationMapper" ∨
        tag = "ProbabilisticMapper" ∨
        tag = "DefaultTurbineSelector") →
        ∃ ks, ks ≠ [] ∧ c' = addToCache cache ks md idx)) ∧
    (∀ (cache : Cache) (ks : List Val) (md : Val) (idx : Option ℤ) (k : Val),
      k ∈ ks →
      cacheLookup (addToCache cache ks md idx) k =
        some ((cacheLookup cache k).getD (md, idx))) ∧
    matchModelDesignationOnTurbine demoCfg demoCatV90 noSelector 50 [] v90Record =
      some ((Val.str "Vestas V90-2.0", some 2, "DatabaseLookup(TurbineType)"),
        [(Val.str "V90", (Val.str "Vestas V90-2.0", some 2))]) := by
  refine ⟨?_, cacheLookup_addToCache_mem, by with_unfolding_all rfl⟩
  intro cfg cat sel fuel cache turbine md idx tag c' h
  constructor
  · intro htp
    subst htp
    exact matchOutcome_towerProps_cache cfg cat sel fuel cache turbine md idx c' h
  · intro htag
    exact matchOutcome_noncache_cached cfg cat sel fuel cache turbine md idx tag c' h htag

/-- Witness for the amended C4, applying its universal parts to the concrete
tower-properties run of the counterexample record (cache returned unchanged),
to the deriver-stage run on the `V90` record (its result cached under a
nonempty key list), and to a concrete `add_to_cache` insertion. -/
theorem c4_noncache_matches_cached_except_tower_props_witness :
    (([] : Cache) = []) ∧
    (∃ ks, ks ≠ [] ∧
      [(Val.str "V90", (Val.str "Vestas V90-2.0", some 2))] =
        addToCache [] ks (Val.str "Vestas V90-2.0") (some 2)) ∧
    cacheLookup (addToCache [] [Val.str "V90"] (Val.str "Vestas V90-2.0") (some 2))
        (Val.str "V90") =
      some ((cacheLookup ([] : Cache) (Val.str "V90")).getD
        (Val.str "Vestas V90-2.0", some 2)) :=
  ⟨(c4_noncache_matches_cached_except_tower_props.1 demoCfg demoCat noSelector 50 []
      xyzzyRecord (Val.str "Vestas V40-500") (some 0)
      "DatabaseLookup(TowerProperties)" [] (by with_unfolding_all rfl)).1 rfl,
   (c4_noncache_matches_cached_except_tower_props.1 demoCfg demoCatV90 noSelector 50 []
      v90Record (Val.str "Vestas V90-2.0") (some 2) "DatabaseLookup(TurbineType)"
      [(Val.str "V90", (Val.str "Vestas V90-2.0", some 2))]
      (by with_unfolding_all rfl)).2 (Or.inr (Or.inl rfl)),
   c4_noncache_matches_cached_except_tower_props.2.1 [] [Val.str "V90"]
     (Val.str "Vestas V90-2.0") (some 2) (Val.str "V90") (by simp)⟩

/-- C5.  The claim says the stored matched line index equals the matched catalog
line index whenever a match was found (so a match at line index 0 is stored as
0) and equals the sentinel −1 exactly when no match was found.  The code writes
`matched_line_index or no_match_idx`, and Python's `or` treats the integer 0 as
falsy, so a successful match at the (valid) line index 0 is stored as the
sentinel −1: the code conflates "matched at line 0" with "not matched", while
designation and index-sentinel then disagree.  This theorem evaluates the
embedded store rule at the failing input: index 0 — a valid full-catalog index,
as the accompanying lookup shows — is stored as −1, not 0. -/
theorem c5_match_at_index_zero_stored_as_sentinel :
    storedMatchedLineIndex (some 0) = -1 ∧ storedMatchedLineIndex none = -1 ∧
    storedMatchedLineIndex (some 3) = 3 ∧
    getSpecsByLineIndex demoCat (some 0) = some demoSpec0 := by
  refine ⟨?_, ?_, ?_, ?_⟩ <;> with_unfolding_all rfl

/-- C6.  `ProbabilisticMapper.map(t, lat, lon, d)` called twice with identical
arguments returns byte-identical model designation strings: the embedded mapper
(including its md5 hash) is a pure function of its four arguments, so the two
calls are definitionally equal. -/
theorem c6_probabilistic_mapper_deterministic :
    ∀ (t : Option String) (lat lon : ℚ) (d : Option ℚ),
      probabilisticMap t lat lon d = probabilisticMap t lat lon d :=
  fun _ _ _ _ => rfl

/-- C7 counterexample.  The claim says a positive power below 20 with
unspecified unit is treated as megawatts, and that with a supplied diameter of
at least 35 m any value below 1000 is treated as megawatts.  The code disagrees
as soon as a diameter is supplied: with `diameter = 35` the value 5 is returned
unchanged (the sub-megawatt branch requires `power < 1`, and the sub-450 branch
requires `diameter ≥ 60`), and the value 400 is likewise returned unchanged. -/
theorem c7_power_to_kw_counterexample :
    powerToKw (some 5) none (some 35) = some 5 ∧
    powerToKw (some 5) none (some 35) ≠ some (5 * 1000) ∧
    powerToKw (some 400) none (some 35) = some 400 ∧
    powerToKw (some 400) none (some 35) ≠ some (400 * 1000) := by
  refine ⟨?_, ?_, ?_, ?_⟩ <;> with_unfolding_all decide

/-- C7 as amended.  With unspecified unit: a positive power below 20 is treated
as megawatts only when no diameter is supplied; with a supplied diameter, a
value below 1 is treated as megawatts when the diameter is at least 35 m, a
value below 450 is treated as megawatts exactly when the diameter is at least
60 m (and returned unchanged as kW otherwise), and a value between 450 and 1000
is always returned unchanged. -/
theorem c7_power_to_kw_amended (p dv : ℚ) :
    (0 < p → p < 20 → powerToKw (some p) none none = some (p * 1000)) ∧
    (35 ≤ dv → p < 1 → powerToKw (some p) none (some dv) = some (p * 1000)) ∧
    (60 ≤ dv → 1 ≤ p → p < 450 → powerToKw (some p) none (some dv) = some (p * 1000)) ∧
    (dv < 60 → p < 450 → (35 ≤ dv → 1 ≤ p) → powerToKw (some p) none (some dv) = some p) ∧
    (450 ≤ p → p ≤ 1000 → ∀ d : Option ℚ, powerToKw (some p) none d = some p) := by
  refine ⟨?_, ?_, ?_, ?_, ?_⟩
  · intro h1 h2
    rw [powerToKw_none_none, if_neg (by linarith), if_neg (by linarith), if_pos ⟨h1, h2⟩]
  · intro h1 h2
    rw [powerToKw_none_some, if_pos ⟨h1, h2⟩]
  · intro h1 h2 h3
    rw [powerToKw_none_some, if_neg (fun hc => absurd hc.2 (not_lt.mpr h2)), if_pos h3,
      if_pos h1]
  · intro h1 h2 h3
    rw [powerToKw_none_some, if_neg (fun hc => absurd hc.2 (not_lt.mpr (h3 hc.1))),
      if_pos h2, if_neg (not_le.mpr h1)]
  · intro h1 h2 d
    cases d with
    | none =>
        rw [powerToKw_none_none, if_neg (by linarith), if_neg (by linarith),
          if_neg (fun hc => absurd hc.2 (by linarith))]
    | some dv2 =>
        rw [powerToKw_none_some, if_neg (fun hc => absurd hc.2 (by linarith)),
          if_neg (not_lt.mpr (by linarith)), if_neg (by linarith), if_neg (by linarith)]

/-- Witness for the amended C7, applying the theorem at concrete inputs. -/
theorem c7_power_to_kw_amended_witness :
    powerToKw (some 5) none none = some (5 * 1000) ∧
    powerToKw (some (1/2)) none (some 40) = some ((1/2) * 1000) ∧
    powerToKw (some 100) none (some 60) = some (100 * 1000) ∧
    powerToKw (some 100) none (some 40) = some 100 ∧
    powerToKw (some 600) none (some 40) = some 600 :=
  ⟨(c7_power_to_kw_amended 5 0).1 (by norm_num) (by norm_num),
   (c7_power_to_kw_amended (1/2) 40).2.1 (by norm_num) (by norm_num),
   (c7_power_to_kw_amended 100 60).2.2.1 (by norm_num) (by norm_num) (by norm_num),
   (c7_power_to_kw_amended 100 40).2.2.2.1 (by norm_num) (by norm_num) (by norm_num),
   (c7_power_to_kw_amended 600 40).2.2.2.2 (by norm_num) (by norm_num) (some 40)⟩

/-- C8 counterexample.  The claim says parsing `"VESTAS V90 3.0MW"` yields
power 3000 kW, but the Vestas rule only captures a power after a dash
(`V90-3.0`); the trailing `" 3.0MW"` is not captured, so the parsed power is
`None`, not 3000. -/
theorem c8_vestas_example_counterexample :
    (parseModelName "VESTAS V90 3.0MW").power = none ∧
    (parseModelName "VESTAS V90 3.0MW").power ≠ some (Val.num 3000) := by
  constructor
  · with_unfolding_all rfl
  · intro h
    rw [show (parseModelName "VESTAS V90 3.0MW").power = none from by
      with_unfolding_all rfl] at h
    exact Option.noConfusion h

/-- C8 as amended.  Parsing `"VESTAS V90 3.0MW"` yields manufacturer `"VESTAS"`
(i.e. `Vestas` case-insensitively), diameter 90 and designation `"VESTAS V90"`
from a known-manufacturer rule — but no power: the trailing `" 3.0MW"` is
dropped because the Vestas rule requires a dash before the power figure. -/
theorem c8_vestas_example_amended :
    (parseModelName "VESTAS V90 3.0MW").manufacturer = some "VESTAS" ∧
    pyLower ((parseModelName "VESTAS V90 3.0MW").manufacturer.getD "") = "vestas" ∧
    (parseModelName "VESTAS V90 3.0MW").diameter = some 90 ∧
    (parseModelName "VESTAS V90 3.0MW").power = none ∧
    (parseModelName "VESTAS V90 3.0MW").model_designation = some "VESTAS V90" ∧
    (parseModelName "VESTAS V90 3.0MW").is_known_manufacturer = true := by
  refine ⟨?_, ?_, ?_, ?_, ?_, ?_⟩ <;> with_unfolding_all rfl

set_option maxRecDepth 100000 in
/-- C9 counterexample.  The round-trip claim quantifies over every diameter and
power, but it fails at `("Vestas", 90, 300)`: the built designation
`"Vestas V90-300"` re-parses with power 300000 kW, because `power_to_kw`
re-interprets the sub-450 figure as megawatts for diameters of at least 60 m —
far outside the enrichment power-tolerance band around 300. -/
theorem c9_round_trip_counterexample :
    buildModelDesignation "Vestas" 90 300 = some "Vestas V90-300" ∧
    (parseModelName "Vestas V90-300").power = some (Val.num 300000) ∧
    ¬ enrichPowerToleranceOk 300000 300 ∧
    roundTripOk "Vestas" 90 300 = false := by
  refine ⟨?_, ?_, ?_, ?_⟩
  · with_unfolding_all rfl
  · with_unfolding_all rfl
  · norm_num [enrichPowerToleranceOk]
  · with_unfolding_all rfl

set_option maxRecDepth 100000 in
/-- C9 as amended.  The round-trip holds for representative in-range builds of
the Vestas, Siemens, Siemens Gamesa, Enercon (all three format branches),
Senvion, REpower, Nordex (both branches) and Bonus families — manufacturer
recovered case-insensitively, diameter within the enrichment band of ±5, power
within the enrichment power-tolerance band — but not universally: sub-megawatt
Vestas powers at diameters ≥ 60 m are re-interpreted as megawatts (the
counterexample), DeWind designations mis-parse their diameter tenfold, and REF
designations encode no diameter at all (manufacturer and power still round-trip
for REF). -/
theorem c9_round_trip_amended :
    roundTripOk "Vestas" 90 3000 = true ∧
    roundTripOk "Vestas" 44 600 = true ∧
    roundTripOk "Siemens" 120 3600 = true ∧
    roundTripOk "Siemens Gamesa" 132 4500 = true ∧
    roundTripOk "Enercon" 40 400 = true ∧
    roundTripOk "Enercon" 70 1500 = true ∧
    roundTripOk "Enercon" 82 2000 = true ∧
    roundTripOk "Senvion" 126 6200 = true ∧
    roundTripOk "REpower" 82 2000 = true ∧
    roundTripOk "Nordex" 131 3300 = true ∧
    roundTripOk "Nordex" 149 4500 = true ∧
    roundTripOk "Bonus" 37 450 = true ∧
    roundTripOk "Dewind" 46 500 = false ∧
    (parseModelName "Dewind D46/500").diameter = some 460 ∧
    roundTripOk "Ref" 126 6000 = false ∧
    buildModelDesignation "Ref" 126 6000 = some "Ref-6.0" ∧
    (parseModelName "Ref-6.0").manufacturer = some "Ref" ∧
    (parseModelName "Ref-6.0").power = some (Val.num 6000) ∧
    (parseModelName "Ref-6.0").diameter = none := by
  refine ⟨?_, ?_, ?_, ?_, ?_, ?_, ?_, ?_, ?_, ?_, ?_, ?_, ?_, ?_, ?_, ?_, ?_, ?_, ?_⟩ <;>
    with_unfolding_all rfl

end Json2Tab
